import Mathlib

/-!
Shallow embedding of the food-delivery data-generation pipeline
(generate_data_01.py, generate_data_02.py, generate_data_03.py).

Modelling conventions:
* Money amounts are rationals; the source's `round(x, 2)` becomes `round2`.
* Timestamps are integers: signup dates and calendar dates are day numbers
  (day 0 = 2024-01-01, a Monday), order/session/delivery times are minutes
  since midnight of day 0, so day `d` starts at minute `d * 1440`.
* The seeded pseudo-random state (`random` + `np.random`, both seeded 42)
  is an abstract stream `g : Nat -> Nat` consumed at an advancing cursor;
  each primitive draw reads one stream value.  `random.randint`,
  `random.choice`, `random.uniform`, `random.random` and the pandas/numpy
  sampling calls are derived from that stream.
* The locale faker (`Faker('en_IN')`) is a separate opaque provider of
  strings, modelled as its own stream `fk : Nat -> String` with its own
  cursor.  Crucially the source seeds only `random` and `np.random`;
  nothing seeds the faker, so `fk` is NOT a function of the seed.
* A pandas `.sample(1)` on an empty frame raises in the source; here the
  corresponding draw returns `none` and the enclosing generation attempt
  produces nothing.
-/

/-- A seeded pseudo-random stream: value number `k` of the sequence. -/
abbrev Rng := Nat → Nat

/-- An unseeded faker entropy stream producing locale-realistic strings. -/
abbrev Faker := Nat → String

/-- Model of Python `round(q, 2)`: round to an integer number of hundredths. -/
def round2 (q : ℚ) : ℚ := ((round (q * 100) : ℤ) : ℚ) / 100

/-- Model of Python `int(q)`: truncation toward zero. -/
def pyInt (q : ℚ) : ℤ := if 0 ≤ q then ⌊q⌋ else ⌈q⌉

/-- Model of `random.randint(lo, hi)` on naturals (`lo ≤ hi`): one stream draw. -/
def randintN (lo hi v : Nat) : Nat := lo + v % (hi + 1 - lo)

/-- Model of `random.randint(lo, hi)` on integers (`lo ≤ hi`): one stream draw. -/
def randintZ (lo hi : ℤ) (v : Nat) : ℤ := lo + ((v : ℤ) % (hi + 1 - lo))

/-- Model of `random.random()`: a rational in `[0, 1)` from one stream draw. -/
def randUnit (v : Nat) : ℚ := ((v % 1000 : Nat) : ℚ) / 1000

/-- Model of `random.uniform(lo, hi)`: a rational in `[lo, hi]` from one draw. -/
def randUniform (lo hi : ℚ) (v : Nat) : ℚ := lo + (hi - lo) * ((v % 1001 : Nat) : ℚ) / 1000

/-- Model of `random.choice(l)` / a one-row sample from a nonempty literal
list; returns the default on an empty list (the source never passes one). -/
def choiceD {α : Type} (l : List α) (d : α) (v : Nat) : α := l.getD (v % l.length) d

/-- Model of a pandas `.sample(1).iloc[0]` from a possibly empty frame:
`none` models the exception raised on an empty frame. -/
def choice? {α : Type} (l : List α) (v : Nat) : Option α := l.get? (v % l.length)

/-- Model of pandas `.sample(n=n)`: sampling without replacement, one stream
draw per picked row. -/
def sampleWithout {α : Type} (g : Rng) : Nat → Nat → List α → List α × Nat
  | k, 0, _ => ([], k)
  | k, _ + 1, [] => ([], k)
  | k, n + 1, x :: xs =>
    let i := g k % (x :: xs).length
    let y := (x :: xs).getD i x
    let rest := (x :: xs).eraseIdx i
    let p := sampleWithout g (k + 1) n rest
    (y :: p.1, p.2)

/-- A rational that is a whole number of hundredths (every price and money
amount written by the pipeline has this shape, because stage 1 rounds every
menu price to 2 decimals). -/
def TwoDec (q : ℚ) : Prop := ∃ n : ℤ, q = (n : ℚ) / 100

/-! ## Data model (section 3 of the spec, mirroring the generated columns) -/

structure City where
  cityID : Nat
  cityName : String
  state : String
  deriving DecidableEq, Inhabited

structure Channel where
  channelID : Nat
  channelName : String
  description : String
  deriving DecidableEq, Inhabited

structure User where
  userID : Nat
  username : String
  email : String
  passwordHash : String
  phone : String
  address : String
  cityID : Nat
  signUpDate : ℤ
  acquisitionChannelID : Nat
  referredBy : Option Nat
  lastLoginDate : ℤ
  isActive : Bool
  preferences : String
  deriving DecidableEq, Inhabited

structure Referral where
  referralID : Nat
  referrerUserID : Nat
  referredUserID : Nat
  referralDate : ℤ
  rewardAmount : ℚ
  rewardStatus : String
  deriving DecidableEq, Inhabited

structure Restaurant where
  restaurantID : Nat
  name : String
  address : String
  cityID : Nat
  cuisine : String
  rating : ℚ
  operatingHours : String
  contactNumber : String
  isActive : Bool
  openingDate : String
  deriving DecidableEq, Inhabited

structure MenuItem where
  menuID : Nat
  restaurantID : Nat
  itemName : String
  description : String
  price : ℚ
  category : String
  cuisineType : String
  isVegetarian : Bool
  isAvailable : Bool
  deriving DecidableEq, Inhabited

structure Order where
  orderID : Nat
  userID : Nat
  restaurantID : Nat
  orderTime : ℤ
  orderDate : ℤ
  orderDay : String
  orderHour : Nat
  totalAmount : ℚ
  deliveryFee : ℚ
  discountAmount : ℚ
  finalAmount : ℚ
  orderStatus : String
  deliveryAddress : String
  paymentMethod : String
  deriving DecidableEq, Inhabited

structure OrderItem where
  orderItemID : Nat
  orderID : Nat
  menuID : Nat
  quantity : Nat
  itemPrice : ℚ
  subtotal : ℚ
  deriving DecidableEq, Inhabited

structure DeliveryTracking where
  deliveryID : Nat
  orderID : Nat
  dispatchTime : ℤ
  estimatedDeliveryTime : ℤ
  actualDeliveryTime : ℤ
  actualDeliveryMinutes : ℤ
  deliveryPartnerID : Nat
  deliveryStatus : String
  deriving DecidableEq, Inhabited

structure UserSession where
  sessionID : Nat
  userID : Nat
  sessionStart : ℤ
  sessionEnd : ℤ
  orderPlaced : Bool
  orderID : Option Nat
  pagesViewed : Nat
  deviceType : String
  deriving DecidableEq, Inhabited

structure CartItem where
  cartID : Nat
  userID : Nat
  restaurantID : Nat
  menuID : Nat
  quantity : Nat
  addedAt : ℤ
  isOrdered : Bool
  orderID : Option Nat
  deriving DecidableEq, Inhabited

/-- Name of the weekday of absolute day `d` (day 0 = 2024-01-01, a Monday),
as produced by `strftime('%A')`. -/
def dayName (d : Nat) : String :=
  choiceD ["Monday", "Tuesday", "Wednesday", "Thursday", "Friday", "Saturday", "Sunday"]
    "Monday" (d % 7)

/-! ## Stage 1: generate_data_01.py -/

/-- Curated city list of `generate_cities` (name, state). -/
def indian_cities : List (String × String) := [
  ("Mumbai", "Maharashtra"), ("Delhi", "Delhi"), ("Bangalore", "Karnataka"),
  ("Hyderabad", "Telangana"), ("Chennai", "Tamil Nadu"), ("Kolkata", "West Bengal"),
  ("Pune", "Maharashtra"), ("Ahmedabad", "Gujarat"), ("Jaipur", "Rajasthan"),
  ("Surat", "Gujarat"), ("Lucknow", "Uttar Pradesh"), ("Kanpur", "Uttar Pradesh"),
  ("Nagpur", "Maharashtra"), ("Indore", "Madhya Pradesh"), ("Thane", "Maharashtra"),
  ("Bhopal", "Madhya Pradesh"), ("Visakhapatnam", "Andhra Pradesh"), ("Pimpri-Chinchwad", "Maharashtra"),
  ("Patna", "Bihar"), ("Vadodara", "Gujarat"), ("Ghaziabad", "Uttar Pradesh"),
  ("Ludhiana", "Punjab"), ("Agra", "Uttar Pradesh"), ("Nashik", "Maharashtra"),
  ("Faridabad", "Haryana"), ("Meerut", "Uttar Pradesh"), ("Rajkot", "Gujarat"),
  ("Kalyan-Dombivali", "Maharashtra"), ("Vasai-Virar", "Maharashtra"), ("Varanasi", "Uttar Pradesh"),
  ("Srinagar", "Jammu and Kashmir"), ("Aurangabad", "Maharashtra"), ("Dhanbad", "Jharkhand"),
  ("Amritsar", "Punjab"), ("Navi Mumbai", "Maharashtra"), ("Allahabad", "Uttar Pradesh"),
  ("Ranchi", "Jharkhand"), ("Howrah", "West Bengal"), ("Coimbatore", "Tamil Nadu"),
  ("Jabalpur", "Madhya Pradesh"), ("Gwalior", "Madhya Pradesh"), ("Vijayawada", "Andhra Pradesh"),
  ("Jodhpur", "Rajasthan"), ("Madurai", "Tamil Nadu"), ("Raipur", "Chhattisgarh"),
  ("Kota", "Rajasthan"), ("Chandigarh", "Chandigarh"), ("Guwahati", "Assam"),
  ("Solapur", "Maharashtra"), ("Hubli-Dharwad", "Karnataka")]

/-- Model of `generate_cities`: sequential ids 1.. over the truncated list. -/
def generate_cities (num_cities : Nat) : List City :=
  (indian_cities.take num_cities).enum.map
    (fun p => { cityID := p.1 + 1, cityName := p.2.1, state := p.2.2 })

/-- Fixed channel catalog of `generate_acquisition_channels` (name, description). -/
def channel_catalog : List (String × String) := [
  ("Organic Search", "Users from search engines"),
  ("Google Ads", "Google advertising"),
  ("Facebook Ads", "Facebook advertising"),
  ("Instagram Ads", "Instagram advertising"),
  ("Referral Program", "User referrals"),
  ("App Store Featured", "App store featuring"),
  ("Email Marketing", "Email campaigns"),
  ("Influencer Marketing", "Influencer promotions"),
  ("Direct", "Direct visits"),
  ("YouTube Ads", "YouTube advertising")]

/-- Model of `generate_acquisition_channels`: sequential ids 1..10. -/
def generate_acquisition_channels : List Channel :=
  channel_catalog.enum.map
    (fun p => { channelID := p.1 + 1, channelName := p.2.1, description := p.2.2 })

/-- Channel weights used by `generate_users` for `np.random.choice`. -/
def channel_weights : List ℚ :=
  [30/100, 15/100, 12/100, 10/100, 15/100, 5/100, 5/100, 3/100, 3/100, 2/100]

/-- Index drawn from a categorical distribution given a unit-interval draw. -/
def categoricalIdx : List ℚ → ℚ → Nat
  | [], _ => 0
  | w :: ws, u => if u < w then 0 else categoricalIdx ws (u - w) + 1

/-- Signup-date scheduler of `generate_users`: one pass over the calendar
days, with monthly compounded growth (Python `//`-division by 30) and a
uniform 0.7-1.3 daily jitter, emitting `daily` copies of each date. -/
def signupDays (g : Rng) (base : ℚ) (startDay : ℤ) : Nat → Nat → Nat → List ℤ × Nat
  | _, 0, k => ([], k)
  | day, n + 1, k =>
    let monthsPassed := day / 30
    let growth : ℚ := 1 + (monthsPassed : ℚ) * 3 / 100
    let u := randUniform (7/10) (13/10) (g k)
    let daily := (pyInt (base * growth * u)).toNat
    let rest := signupDays g base startDay (day + 1) n (k + 1)
    (List.replicate daily (startDay + day) ++ rest.1, rest.2)

/-- Per-user body of the `generate_users` loop.  `i` is the 1-based user id,
`k` the seeded-stream cursor and `j` the faker-stream cursor; the faker
fields (username, email, password hash, phone, address) come from the
unseeded faker stream. -/
def usersLoop (g : Rng) (fk : Faker) (cities : List City) (channelIDs : List Nat)
    (schedule : List ℤ) (startDay : ℤ) : Nat → Nat → Nat → Nat → List User
  | 0, _, _, _ => []
  | n + 1, i, k, j =>
    match choice? cities (g k) with
    | none => []
    | some city =>
      let chIdx := categoricalIdx channel_weights (randUnit (g (k + 1)))
      let channelID := channelIDs.getD chIdx 0
      let sd := schedule.get? (i - 1)
      let signup : ℤ :=
        match sd with
        | some d => d
        | none => startDay + randintZ 0 364 (g (k + 2))
      let k2 := match sd with | some _ => k + 2 | none => k + 3
      { userID := i
        username := fk j
        email := fk (j + 1)
        passwordHash := fk (j + 2)
        phone := fk (j + 3)
        address := fk (j + 4)
        cityID := city.cityID
        signUpDate := signup
        acquisitionChannelID := channelID
        referredBy := none
        lastLoginDate := signup + randintZ 0 30 (g k2)
        isActive := choiceD (List.replicate 95 true ++ List.replicate 5 false) true (g (k2 + 1))
        preferences := choiceD ["None", "Vegetarian", "Vegan", "Jain"] "None" (g (k2 + 2)) }
        :: usersLoop g fk cities channelIDs schedule startDay n (i + 1) (k2 + 3) (j + 5)

/-- Model of `generate_users`: schedules signup dates then builds the rows.
`numDays` is the number of calendar days between start and end inclusive. -/
def generate_users (g : Rng) (fk : Faker) (num_users : Nat) (cities : List City)
    (channels : List Channel) (startDay : ℤ) (numDays : Nat) (k j : Nat) : List User :=
  let base : ℚ := ((num_users / 365 : Nat) : ℚ)
  let sch := signupDays g base startDay 0 numDays k
  let schedule := sch.1.take num_users
  usersLoop g fk cities (channels.map (fun c => c.channelID)) schedule startDay
    num_users 1 sch.2 j

/-- Update of `users_df.at[idx, 'ReferredBy'] = referrer['UserID']`. -/
def setReferredBy (users : List User) (uid referrerID : Nat) : List User :=
  users.map (fun v => if v.userID == uid then { v with referredBy := some referrerID } else v)

/-- Loop body of `add_referrals`: for each user acquired through channel 5
("Referral Program"), pick a uniformly random strictly-earlier-signed-up
other user as referrer, back-fill `ReferredBy`, and emit one referral row;
skip silently when no such user exists. -/
def referralLoop (g : Rng) : List User → List User → List Referral → Nat →
    List User × List Referral × Nat
  | [], cur, acc, k => (cur, acc, k)
  | u :: rest, cur, acc, k =>
    let potential := cur.filter
      (fun v => decide (v.signUpDate < u.signUpDate) && v.userID != u.userID)
    if potential.isEmpty then
      referralLoop g rest cur acc k
    else
      let referrer := choiceD potential u (g k)
      let reward : ℚ := choiceD [50, 75, 100] 50 (g (k + 1))
      let status := choiceD ["Paid", "Paid", "Paid", "Pending"] "Paid" (g (k + 2))
      let cur2 := setReferredBy cur u.userID referrer.userID
      let ref : Referral :=
        { referralID := acc.length + 1
          referrerUserID := referrer.userID
          referredUserID := u.userID
          referralDate := u.signUpDate
          rewardAmount := reward
          rewardStatus := status }
      referralLoop g rest cur2 (acc ++ [ref]) (k + 3)

/-- Model of `add_referrals`: iterates over the users whose acquisition
channel is 5 and returns the back-filled user table plus the referral rows. -/
def add_referrals (g : Rng) (users : List User) (k : Nat) :
    List User × List Referral × Nat :=
  referralLoop g (users.filter (fun u => u.acquisitionChannelID == 5)) users [] k

/-- The five metros that receive the `rating_bias` in `generate_restaurants`. -/
def metro_cities : List String := ["Mumbai", "Delhi", "Bangalore", "Hyderabad", "Chennai"]

/-- Cuisine list of `generate_restaurants`. -/
def cuisines : List String :=
  ["North Indian", "South Indian", "Chinese", "Italian", "Continental",
   "Fast Food", "Desserts", "Beverages", "Bakery", "Street Food",
   "Mughlai", "Bengali", "Punjabi", "Gujarati", "Rajasthani"]

/-- Restaurant base-name list of `generate_restaurants`. -/
def restaurant_names : List String :=
  ["The Great Kabab Factory", "Barbeque Nation", "Mainland China", "Paradise Biryani",
   "Dominos Pizza", "Pizza Hut", "KFC", "McDonalds", "Subway", "Burger King",
   "Cafe Coffee Day", "Starbucks", "The Beer Cafe", "Social", "The Brew House",
   "Haldirams", "Bikanervala", "Sagar Ratna", "Saravana Bhavan", "MTR",
   "Kareems", "Moti Mahal", "Punjab Grill", "Oh! Calcutta", "Arsalan",
   "Empire Restaurant", "Meghana Foods", "Truffles", "Toit", "Smoke House Deli"]

/-- Loop body of `generate_restaurants` for restaurant number `i`; the
rating is `round(uniform(3.0, 5.0) + rating_bias, 2)` with a 0.3 bias
exactly for the five metro cities, and no upper clamp. -/
def restaurantsLoop (g : Rng) (fk : Faker) (cities : List City) :
    Nat → Nat → Nat → Nat → List Restaurant
  | 0, _, _, _ => []
  | n + 1, i, k, j =>
    match choice? cities (g k) with
    | none => []
    | some city =>
      let cuisine := choiceD cuisines "North Indian" (g (k + 1))
      let rating_bias : ℚ := if metro_cities.contains city.cityName then 3/10 else 0
      { restaurantID := i
        name := choiceD restaurant_names "KFC" (g (k + 2)) ++ " - " ++ city.cityName
          ++ " " ++ toString i
        address := fk j
        cityID := city.cityID
        cuisine := cuisine
        rating := round2 (randUniform 3 5 (g (k + 3)) + rating_bias)
        operatingHours := "10:00 AM - 11:00 PM"
        contactNumber := fk (j + 1)
        isActive := choiceD (List.replicate 95 true ++ List.replicate 5 false) true (g (k + 4))
        openingDate := fk (j + 2) }
        :: restaurantsLoop g fk cities n (i + 1) (k + 5) (j + 3)

/-- Model of `generate_restaurants`. -/
def generate_restaurants (g : Rng) (fk : Faker) (num_restaurants : Nat)
    (cities : List City) (k j : Nat) : List Restaurant :=
  restaurantsLoop g fk cities num_restaurants 1 k j

/-- Category price ranges of `generate_realistic_price`; the produced price
is `round(uniform(lo, hi), 2)`, hence always a whole number of hundredths. -/
def generate_realistic_price (g : Rng) (category : String) (k : Nat) : ℚ :=
  let ranges : List (String × ℚ × ℚ) :=
    [("Appetizer", 50, 250), ("Main Course", 150, 600), ("Dessert", 80, 200),
     ("Beverage", 30, 150), ("Bread", 20, 80), ("Salad", 100, 250), ("Soup", 80, 180)]
  let r := ((ranges.find? (fun p => p.1 == category)).map (fun p => p.2)).getD (100, 400)
  round2 (randUniform r.1 r.2 (g k))

/-! ## Stage 2: generate_data_02.py -/

/-- Configuration of the stage-2 run (`CONFIG` in generate_data_02.py):
the calendar range is the `numDays` days starting at `startDay`. -/
structure OrdersConfig where
  startDay : ℤ
  numDays : Nat
  target_total_orders : Nat
  power_user_percentage : ℚ
  weekend_only_user_percentage : ℚ
  bot_users_count : Nat
  deriving DecidableEq, Inhabited

/-- Python `date.weekday()`: 0 = Monday, since day 0 is 2024-01-01, a Monday. -/
def weekdayNum (t : ℤ) : Nat := (t % 7).toNat

/-- Model of `get_order_hour_with_peaks`: hour via the fixed peak mixture. -/
def get_order_hour_with_peaks (g : Rng) (k : Nat) : Nat × Nat :=
  let rand := randUnit (g k)
  if rand < 40/100 then (randintN 19 22 (g (k + 1)), k + 2)
  else if rand < 65/100 then (randintN 12 15 (g (k + 1)), k + 2)
  else if rand < 80/100 then (randintN 16 18 (g (k + 1)), k + 2)
  else if rand < 90/100 then (randintN 8 11 (g (k + 1)), k + 2)
  else (choiceD [23, 0, 1] 23 (g (k + 1)), k + 2)

/-- Cohort split of `generate_orders` (power / weekend-only / bot / regular),
sampling user ids without replacement exactly as the source's chained
`DataFrame.sample` calls do. -/
def categorizeUsers (g : Rng) (users : List User) (cfg : OrdersConfig) (k : Nat) :
    (List Nat × List Nat × List Nat × List Nat) × Nat :=
  let total := users.length
  let num_power := (pyInt ((total : ℚ) * cfg.power_user_percentage)).toNat
  let num_weekend := (pyInt ((total : ℚ) * cfg.weekend_only_user_percentage)).toNat
  let ids := users.map (fun u => u.userID)
  let sp := sampleWithout g k num_power ids
  let power := sp.1
  let sw := sampleWithout g sp.2 num_weekend (ids.filter (fun i => !(power.contains i)))
  let weekend := sw.1
  let sb := sampleWithout g sw.2 cfg.bot_users_count
    (ids.filter (fun i => !(power.contains i) && !(weekend.contains i)))
  let bots := sb.1
  let regular := ids.filter
    (fun i => !(power.contains i) && !(weekend.contains i) && !(bots.contains i))
  ((power, weekend, bots, regular), sb.2)

/-- Line-item builder of the order-synthesis loop: one quantity draw per
selected menu row, `subtotal = price * quantity`, accumulating the pre-fee
order total. -/
def buildItems (g : Rng) (oid : Nat) :
    List MenuItem → Nat → Nat → List OrderItem × ℚ × Nat × Nat
  | [], oiid, k => ([], 0, oiid, k)
  | item :: rest, oiid, k =>
    let q : Nat := choiceD [1, 1, 1, 2] 1 (g k)
    let sub := item.price * (q : ℚ)
    let r := buildItems g oid rest (oiid + 1) (k + 1)
    ({ orderItemID := oiid, orderID := oid, menuID := item.menuID, quantity := q,
       itemPrice := item.price, subtotal := sub } :: r.1, sub + r.2.1, r.2.2.1, r.2.2.2)

/-- Restaurant selection of the daily loop: among active restaurants,
preferring those in the user's city and falling back to any active
restaurant when the city has none. -/
def pickRestaurant (restaurants : List Restaurant) (cityID : Nat) (v : Nat) :
    Option Restaurant :=
  if (restaurants.filter (fun r => r.cityID == cityID && r.isActive)).isEmpty then
    choice? (restaurants.filter (fun r => r.isActive)) v
  else
    choice? (restaurants.filter (fun r => r.cityID == cityID && r.isActive)) v

/-- Order-level fee, discount and row assembly of the daily loop: fee from a
fixed discrete set favoring free delivery, a 10% or 15% (or zero) discount
only above the 500 pre-fee threshold, stored amounts rounded to 2 decimals,
status 90% Delivered / 10% Cancelled. -/
def finishOrder (oid uid restaurantID : Nat) (order_time date : ℤ) (dn : String)
    (order_hour : Nat) (total_amount : ℚ) (address : String) (g : Rng) (k5 : Nat) :
    Order × Nat :=
  let delivery_fee : ℚ := choiceD [0, 0, 30, 40, 50, 60] 0 (g k5)
  let discount_amount : ℚ :=
    if 500 < total_amount then
      round2 (total_amount * choiceD [0, 0, 10/100, 15/100] 0 (g (k5 + 1)))
    else 0
  let k6 := if 500 < total_amount then k5 + 2 else k5 + 1
  let final_amount := total_amount + delivery_fee - discount_amount
  let o : Order :=
    { orderID := oid
      userID := uid
      restaurantID := restaurantID
      orderTime := order_time
      orderDate := date
      orderDay := dn
      orderHour := order_hour
      totalAmount := round2 total_amount
      deliveryFee := delivery_fee
      discountAmount := discount_amount
      finalAmount := round2 final_amount
      orderStatus := choiceD
        (List.replicate 90 "Delivered" ++ List.replicate 10 "Cancelled")
        "Delivered" (g k6)
      deliveryAddress := address
      paymentMethod := choiceD
        ["Credit Card", "Debit Card", "UPI", "UPI", "UPI", "Cash on Delivery"]
        "UPI" (g (k6 + 1)) }
  (o, k6 + 2)

/-- Item selection and assembly tail of one daily-loop iteration, entered
once the chosen restaurant is known to have available menu items: 1-4 items
sampled without replacement, then `finishOrder`. -/
def genOneOrderItems (menu : List MenuItem) (date : ℤ) (dn : String)
    (oid oiid : Nat) (g : Rng) (uid : Nat) (restaurantID : Nat) (address : String)
    (order_hour : Nat) (order_time : ℤ) (k3 : Nat) :
    Option (Order × List OrderItem) × Nat :=
  let p := randUnit (g k3)
  let num_items := if p < 55/100 then 1 else if p < 85/100 then 2
    else if p < 95/100 then 3 else 4
  let restaurant_menu := menu.filter
    (fun m => m.restaurantID == restaurantID && m.isAvailable)
  let sw := sampleWithout g (k3 + 1) (min num_items restaurant_menu.length)
    restaurant_menu
  let b := buildItems g oid sw.1 oiid sw.2
  let fo := finishOrder oid uid restaurantID order_time date dn order_hour
    b.2.1 address g b.2.2.2
  (some (fo.1, b.1), fo.2)

/-- One iteration of the daily order-synthesis loop: pick a user from the
day's cohort pool, a restaurant (active, preferring the user's city), an
order time, then the line items, fee and discount.  `none` models the
`continue` taken when the chosen restaurant has no available menu item (the
order id is not consumed), and also the exceptions a pandas sample on an
empty frame would raise. -/
def genOneOrder (users : List User) (restaurants : List Restaurant) (menu : List MenuItem)
    (pool : List Nat) (date : ℤ) (dn : String) (oid oiid : Nat) (g : Rng) (k : Nat) :
    Option (Order × List OrderItem) × Nat :=
  match choice? pool (g k) with
  | none => (none, k + 1)
  | some uid =>
    match users.find? (fun u => u.userID == uid) with
    | none => (none, k + 1)
    | some user =>
      match pickRestaurant restaurants user.cityID (g (k + 1)) with
      | none => (none, k + 2)
      | some restaurant =>
        let hp := get_order_hour_with_peaks g (k + 2)
        let order_hour := hp.1
        let order_minute := randintN 0 59 (g hp.2)
        let k3 := hp.2 + 1
        let order_time := date * 1440 + order_hour * 60 + order_minute
        if (menu.filter (fun m => m.restaurantID == restaurant.restaurantID &&
            m.isAvailable)).isEmpty then (none, k3)
        else
          genOneOrderItems menu date dn oid oiid g uid restaurant.restaurantID
            user.address order_hour order_time k3

/-- The `for _ in range(daily_orders)` loop: order and item ids advance only
when an order is actually created. -/
def genOrdersForDay (users : List User) (restaurants : List Restaurant)
    (menu : List MenuItem) (pool : List Nat) (date : ℤ) (dn : String) (g : Rng) :
    Nat → Nat → Nat → Nat → List Order × List OrderItem × Nat × Nat × Nat
  | 0, oid, oiid, k => ([], [], oid, oiid, k)
  | n + 1, oid, oiid, k =>
    match genOneOrder users restaurants menu pool date dn oid oiid g k with
    | (none, k2) => genOrdersForDay users restaurants menu pool date dn g n oid oiid k2
    | (some (o, its), k2) =>
      let r := genOrdersForDay users restaurants menu pool date dn g n
        (oid + 1) (oiid + its.length) k2
      (o :: r.1, its ++ r.2.1, r.2.2.1, r.2.2.2.1, r.2.2.2.2)

/-- The `while current_date <= end_date` loop of `generate_orders`: daily
order volume from the 3%-per-30-days growth factor with a 1.4 weekend boost,
weekday pools excluding weekend-only users. -/
def genDays (users : List User) (restaurants : List Restaurant) (menu : List MenuItem)
    (weekdayPool weekendPool : List Nat) (cfg : OrdersConfig) (g : Rng) :
    Nat → Nat → Nat → Nat → Nat → List Order × List OrderItem × Nat × Nat × Nat
  | _, 0, oid, oiid, k => ([], [], oid, oiid, k)
  | d, n + 1, oid, oiid, k =>
    let date := cfg.startDay + d
    let wd := weekdayNum date
    let month_factor : ℚ := 1 + (d : ℚ) / 30 * (3/100)
    let base : ℚ := (cfg.target_total_orders : ℚ) / 365
    let daily := (pyInt (if 5 ≤ wd then base * (14/10) * month_factor
      else base * month_factor)).toNat
    let pool := if 5 ≤ wd then weekendPool else weekdayPool
    let r := genOrdersForDay users restaurants menu pool date (dayName wd) g
      daily oid oiid k
    let r2 := genDays users restaurants menu weekdayPool weekendPool cfg g
      (d + 1) n r.2.2.1 r.2.2.2.1 r.2.2.2.2
    (r.1 ++ r2.1, r.2.1 ++ r2.2.1, r2.2.2.1, r2.2.2.2.1, r2.2.2.2.2)

/-- One bot burst: 50-100 single-item orders on one day, restaurant sampled
from ALL restaurants (no `IsActive` filter), always free delivery, zero
discount, status Delivered, payment UPI, amounts stored unrounded. -/
def genBotBurst (users : List User) (restaurants : List Restaurant) (menu : List MenuItem)
    (botUid : Nat) (botDate : ℤ) (g : Rng) :
    Nat → Nat → Nat → Nat → List Order × List OrderItem × Nat × Nat × Nat
  | 0, oid, oiid, k => ([], [], oid, oiid, k)
  | n + 1, oid, oiid, k =>
    match choice? restaurants (g k) with
    | none => genBotBurst users restaurants menu botUid botDate g n oid oiid (k + 1)
    | some restaurant =>
      let restaurant_menu := menu.filter
        (fun m => m.restaurantID == restaurant.restaurantID && m.isAvailable)
      if restaurant_menu.isEmpty then
        genBotBurst users restaurants menu botUid botDate g n oid oiid (k + 1)
      else
        match choice? restaurant_menu (g (k + 1)) with
        | none => genBotBurst users restaurants menu botUid botDate g n oid oiid (k + 2)
        | some item =>
          let order_hour := randintN 0 23 (g (k + 2))
          let order_minute := randintN 0 59 (g (k + 3))
          let order_time := botDate * 1440 + order_hour * 60 + order_minute
          let total_amount := item.price
          let o : Order :=
            { orderID := oid
              userID := botUid
              restaurantID := restaurant.restaurantID
              orderTime := order_time
              orderDate := botDate
              orderDay := dayName (weekdayNum botDate)
              orderHour := order_hour
              totalAmount := total_amount
              deliveryFee := 0
              discountAmount := 0
              finalAmount := total_amount
              orderStatus := "Delivered"
              deliveryAddress :=
                (((users.find? (fun u => u.userID == botUid)).map
                  (fun u => u.address)).getD "")
              paymentMethod := "UPI" }
          let it : OrderItem :=
            { orderItemID := oiid, orderID := oid, menuID := item.menuID,
              quantity := 1, itemPrice := item.price, subtotal := item.price }
          let r := genBotBurst users restaurants menu botUid botDate g n
            (oid + 1) (oiid + 1) (k + 4)
          (o :: r.1, it :: r.2.1, r.2.2.1, r.2.2.2.1, r.2.2.2.2)

/-- The bot-injection pass over `bot_users[:25]`: each bot gets one random
burst day in the first 301 days and a burst of `randint(50, 100)` orders. -/
def genBotUsers (users : List User) (restaurants : List Restaurant) (menu : List MenuItem)
    (startDay : ℤ) (g : Rng) :
    List Nat → Nat → Nat → Nat → List Order × List OrderItem × Nat × Nat × Nat
  | [], oid, oiid, k => ([], [], oid, oiid, k)
  | uid :: rest, oid, oiid, k =>
    let botDate := startDay + randintZ 0 300 (g k)
    let count := randintN 50 100 (g (k + 1))
    let r := genBotBurst users restaurants menu uid botDate g count oid oiid (k + 2)
    let r2 := genBotUsers users restaurants menu startDay g rest
      r.2.2.1 r.2.2.2.1 r.2.2.2.2
    (r.1 ++ r2.1, r.2.1 ++ r2.2.1, r2.2.2.1, r2.2.2.2.1, r2.2.2.2.2)

/-- Model of `generate_orders`: cohort split, the daily synthesis loop over
the whole calendar range, then the bot-injection pass, ids continuing across
the two passes. -/
def generate_orders (users : List User) (restaurants : List Restaurant)
    (menu : List MenuItem) (cfg : OrdersConfig) (g : Rng) (k : Nat) :
    List Order × List OrderItem :=
  let c := categorizeUsers g users cfg k
  let power := c.1.1
  let weekend := c.1.2.1
  let bots := c.1.2.2.1
  let regular := c.1.2.2.2
  let weekendPool := power ++ weekend ++ regular
  let weekdayPool := power ++ regular
  let r := genDays users restaurants menu weekdayPool weekendPool cfg g
    0 cfg.numDays 1 1 c.2
  let r2 := genBotUsers users restaurants menu cfg.startDay g (bots.take 25)
    r.2.2.1 r.2.2.2.1 r.2.2.2.2
  (r.1 ++ r2.1, r.2.1 ++ r2.2.1)

/-- Model of `generate_delivery_tracking`: one row per Delivered order (none
for Cancelled), dispatch 5-15 minutes after order time, actual delivery
around the estimate with a 5% outlier override of 60-120 minutes. -/
def generate_delivery_tracking (g : Rng) : List Order → Nat → List DeliveryTracking × Nat
  | [], k => ([], k)
  | o :: os, k =>
    if o.orderStatus == "Delivered" then
      let dispatch_time := o.orderTime + randintZ 5 15 (g k)
      let estimated_minutes := randintZ 20 40 (g (k + 1))
      let estimated_delivery := dispatch_time + estimated_minutes
      let actual_variation := randintZ (-10) 15 (g (k + 2))
      let outlier := randUnit (g (k + 3)) < 5/100
      let actual_minutes := if outlier then randintZ 60 120 (g (k + 4))
        else estimated_minutes + actual_variation
      let actual_delivery := dispatch_time + actual_minutes
      let k2 := if outlier then k + 5 else k + 4
      let partner := randintN 1 1000 (g k2)
      let r := generate_delivery_tracking g os (k2 + 1)
      let row : DeliveryTracking :=
        { deliveryID := o.orderID
          orderID := o.orderID
          dispatchTime := dispatch_time
          estimatedDeliveryTime := estimated_delivery
          actualDeliveryTime := actual_delivery
          actualDeliveryMinutes := actual_minutes
          deliveryPartnerID := partner
          deliveryStatus := "Delivered" }
      (row :: r.1, r.2)
    else generate_delivery_tracking g os k

/-! ## Stage 3: generate_data_03.py -/

/-- Configuration of the stage-3 run (`CONFIG` in generate_data_03.py). -/
structure Stage3Config where
  sessions_per_user_per_month : Nat
  abandoned_cart_rate : ℚ
  deriving DecidableEq, Inhabited

/-- Master input tables required before stage 3 may run. -/
def required_master : List String := ["users.csv", "restaurants.csv", "menu.csv"]

/-- Transaction input tables required before stage 3 may run. -/
def required_txn : List String := ["orders.csv", "order_items.csv"]

/-- Per-session body of `generate_user_sessions`: a random day in the user's
active window, a 2-30 minute duration, attribution of the first order whose
timestamp falls inside the session window. -/
def sessionLoop (g : Rng) (userID : Nat) (signupDay endDay : ℤ)
    (user_orders : List Order) : Nat → Nat → Nat → List UserSession × Nat × Nat
  | 0, sid, k => ([], sid, k)
  | n + 1, sid, k =>
    let random_days := randintZ 0 (endDay - signupDay) (g k)
    let session_start := (signupDay + random_days) * 1440
    let duration : Nat := randintN 2 30 (g (k + 1))
    let session_end := session_start + duration
    let order_match := user_orders.filter
      (fun o => decide (session_start ≤ o.orderTime) && decide (o.orderTime ≤ session_end))
    let order_placed := !order_match.isEmpty
    let s : UserSession :=
      { sessionID := sid
        userID := userID
        sessionStart := session_start
        sessionEnd := session_end
        orderPlaced := order_placed
        orderID := order_match.head?.map (fun o => o.orderID)
        pagesViewed := if order_placed then randintN 5 20 (g (k + 2))
          else randintN 1 8 (g (k + 2))
        deviceType := choiceD ["Mobile", "Mobile", "Mobile", "Desktop", "Tablet"]
          "Mobile" (g (k + 3)) }
    let r := sessionLoop g userID signupDay endDay user_orders n (sid + 1) (k + 4)
    (s :: r.1, r.2.1, r.2.2)

/-- Per-user body of `generate_user_sessions`: active months (minimum 1, via
Python `int()` truncation of days/30) times the configured monthly rate. -/
def userSessionsLoop (g : Rng) (orders : List Order) (cfg : Stage3Config) (endDay : ℤ) :
    List User → Nat → Nat → List UserSession × Nat
  | [], _, k => ([], k)
  | u :: rest, sid, k =>
    let months_active := max 1 (pyInt (((endDay - u.signUpDate : ℤ) : ℚ) / 30))
    let total_sessions := months_active.toNat * cfg.sessions_per_user_per_month
    let user_orders := orders.filter (fun o => o.userID == u.userID)
    let r := sessionLoop g u.userID u.signUpDate endDay user_orders total_sessions sid k
    let r2 := userSessionsLoop g orders cfg endDay rest r.2.1 r.2.2
    (r.1 ++ r2.1, r2.2)

/-- Model of `generate_user_sessions`. -/
def generate_user_sessions (g : Rng) (users : List User) (orders : List Order)
    (cfg : Stage3Config) (endDay : ℤ) (k : Nat) : List UserSession × Nat :=
  userSessionsLoop g orders cfg endDay users 1 k

/-- Converted-cart rows for one order: one `IsOrdered = true` cart row per
order line item, added 1-10 minutes before the order time. -/
def cartRowsForOrder (g : Rng) (o : Order) :
    List OrderItem → Nat → Nat → List CartItem × Nat × Nat
  | [], cid, k => ([], cid, k)
  | it :: rest, cid, k =>
    let row : CartItem :=
      { cartID := cid
        userID := o.userID
        restaurantID := o.restaurantID
        menuID := it.menuID
        quantity := it.quantity
        addedAt := o.orderTime - randintZ 1 10 (g k)
        isOrdered := true
        orderID := some o.orderID }
    let r := cartRowsForOrder g o rest (cid + 1) (k + 1)
    (row :: r.1, r.2.1, r.2.2)

/-- First pass of `generate_cart_items`: reconstruct one cart row per
existing order line item. -/
def cartFromOrders (g : Rng) (order_items : List OrderItem) :
    List Order → Nat → Nat → List CartItem × Nat × Nat
  | [], cid, k => ([], cid, k)
  | o :: os, cid, k =>
    let items := order_items.filter (fun it => it.orderID == o.orderID)
    let r := cartRowsForOrder g o items cid k
    let r2 := cartFromOrders g order_items os r.2.1 r.2.2
    (r.1 ++ r2.1, r2.2.1, r2.2.2)

/-- Abandoned-cart pass of `generate_cart_items`: each draw samples a user,
an active restaurant and one of its available menu items; a restaurant with
no available menu item makes the draw emit nothing (undershooting the
target). -/
def abandonedLoop (g : Rng) (users : List User) (restaurants : List Restaurant)
    (menu : List MenuItem) (startDay : ℤ) : Nat → Nat → Nat → List CartItem × Nat × Nat
  | 0, cid, k => ([], cid, k)
  | n + 1, cid, k =>
    match choice? users (g k) with
    | none => abandonedLoop g users restaurants menu startDay n cid (k + 1)
    | some user =>
      match choice? (restaurants.filter (fun r => r.isActive)) (g (k + 1)) with
      | none => abandonedLoop g users restaurants menu startDay n cid (k + 2)
      | some restaurant =>
        let menu_items := menu.filter
          (fun m => m.restaurantID == restaurant.restaurantID && m.isAvailable)
        if menu_items.isEmpty then
          abandonedLoop g users restaurants menu startDay n cid (k + 2)
        else
          match choice? menu_items (g (k + 2)) with
          | none => abandonedLoop g users restaurants menu startDay n cid (k + 3)
          | some item =>
            let row : CartItem :=
              { cartID := cid
                userID := user.userID
                restaurantID := restaurant.restaurantID
                menuID := item.menuID
                quantity := choiceD [1, 1, 2] 1 (g (k + 3))
                addedAt := (startDay + randintZ 0 364 (g (k + 4))) * 1440
                isOrdered := false
                orderID := none }
            let r := abandonedLoop g users restaurants menu startDay n (cid + 1) (k + 5)
            (row :: r.1, r.2.1, r.2.2)

/-- Model of `generate_cart_items`: converted carts then abandoned carts,
with `target_abandoned = int(len(cart) * rate / (1 - rate))`. -/
def generate_cart_items (g : Rng) (users : List User) (restaurants : List Restaurant)
    (menu : List MenuItem) (orders : List Order) (order_items : List OrderItem)
    (rate : ℚ) (startDay : ℤ) (k : Nat) : List CartItem × Nat :=
  let r := cartFromOrders g order_items orders 1 k
  let target_abandoned := (pyInt ((r.1.length : ℚ) * rate / (1 - rate))).toNat
  let r2 := abandonedLoop g users restaurants menu startDay target_abandoned r.2.1 r.2.2
  (r.1 ++ r2.1, r2.2.2)

/-- The required input files of stage 3, each joined to its directory and
paired with the error-message prefix used when it is missing, in the order
the safety checks run (master files first, then transaction files). -/
def required_files : List (String × String) :=
  (required_master.map (fun f => ("1_csv_files/" ++ f, "Missing master file: "))) ++
  (required_txn.map (fun f => (f, "Missing transaction file: ")))

/-- The precondition block of generate_data_03.py: raise `FileNotFoundError`
naming the first absent required file, before anything is generated. -/
def stage3_check (present : String → Bool) : Except String Unit :=
  match required_files.find? (fun p => !(present p.1)) with
  | some p => Except.error (p.2 ++ p.1)
  | none => Except.ok ()

/-- The two output tables written by stage 3. -/
structure Stage3Output where
  user_sessions : List UserSession
  cart_items : List CartItem
  deriving DecidableEq, Inhabited

/-- Top level of generate_data_03.py: the safety checks run first and a
missing file aborts the run with no sessions, no carts and no written
output (the `Except.error` branch carries no `Stage3Output`); otherwise
sessions then carts are generated off the same seeded stream. -/
def stage3_main (present : String → Bool) (users : List User)
    (restaurants : List Restaurant) (menu : List MenuItem) (orders : List Order)
    (order_items : List OrderItem) (cfg : Stage3Config) (startDay endDay : ℤ)
    (g : Rng) : Except String Stage3Output :=
  match stage3_check present with
  | Except.error e => Except.error e
  | Except.ok _ =>
    let s := generate_user_sessions g users orders cfg endDay 0
    let cart := generate_cart_items g users restaurants menu orders order_items
      cfg.abandoned_cart_rate startDay s.2
    Except.ok { user_sessions := s.1, cart_items := cart.1 }

/-! ## Specification predicates used by the claim theorems -/

/-- Money specification of an Order row: the stored final amount is the
2-decimal rounding of total + fee - discount, and a nonzero discount occurs
only above the 500 threshold, as 10% or 15% of the pre-fee subtotal. -/
def FinalAmountSpec (o : Order) : Prop :=
  o.finalAmount = round2 (o.totalAmount + o.deliveryFee - o.discountAmount) ∧
  (o.discountAmount ≠ 0 →
    500 < o.totalAmount ∧
    (o.discountAmount = round2 (o.totalAmount * (10/100)) ∨
     o.discountAmount = round2 (o.totalAmount * (15/100))))

/-- Restaurant-choice specification of a daily-loop Order row: the chosen
restaurant exists, is active, has at least one available menu item, and sits
in the ordering user's city whenever that city has any active restaurant. -/
def RestaurantChoiceSpec (users : List User) (restaurants : List Restaurant)
    (menu : List MenuItem) (o : Order) : Prop :=
  ∃ r ∈ restaurants, r.restaurantID = o.restaurantID ∧ r.isActive = true ∧
    (∃ m ∈ menu, m.restaurantID = o.restaurantID ∧ m.isAvailable = true) ∧
    (∀ u, users.find? (fun x => x.userID == o.userID) = some u →
      restaurants.filter (fun r2 => r2.cityID == u.cityID && r2.isActive) ≠ [] →
      r.cityID = u.cityID)

/-- Bookkeeping invariant of an order-generation segment that starts at
order id `oid` and ends at `oid2`: ids are consecutive and consumed only by
created orders, items point into the segment, every item's subtotal is
quantity times unit price, the items of each order sum to its stored total,
and every order satisfies the money specification. -/
def SegInv (oid : Nat) (os : List Order) (its : List OrderItem) (oid2 : Nat) : Prop :=
  oid2 = oid + os.length ∧
  os.map (fun o => o.orderID) = List.range' oid os.length ∧
  (∀ it ∈ its, oid ≤ it.orderID ∧ it.orderID < oid2) ∧
  (∀ it ∈ its, it.subtotal = (it.quantity : ℚ) * it.itemPrice) ∧
  (∀ o ∈ os,
    ((its.filter (fun it => it.orderID == o.orderID)).map (fun it => it.subtotal)).sum
      = o.totalAmount) ∧
  (∀ o ∈ os, FinalAmountSpec o)

/-- Provenance specification of a Referral row against the original user
table: the referred user was acquired through channel 5 and the referrer
signed up strictly earlier. -/
def ReferralSpec (users : List User) (ref : Referral) : Prop :=
  ∃ referred ∈ users, referred.userID = ref.referredUserID ∧
    referred.acquisitionChannelID = 5 ∧
    ∃ referrer ∈ users, referrer.userID = ref.referrerUserID ∧
      referrer.signUpDate < referred.signUpDate

/-- No strictly-earlier-signed-up other user exists for `u`: the skip
condition of `add_referrals`. -/
def NoEarlier (users : List User) (u : User) : Prop :=
  ∀ v ∈ users, v.userID ≠ u.userID → ¬ v.signUpDate < u.signUpDate

/-- Forget the back-fillable `ReferredBy` field; `add_referrals` changes a
user row only through that field. -/
def stripRef (u : User) : User := { u with referredBy := none }

/-! ## Concrete fixture used by the witnesses and the existential claims -/

/-- The all-zero seeded stream (a specific admissible seed realization). -/
def gZero : Rng := fun _ => 0

/-- A faker entropy realization answering "A" to every draw. -/
def fkA : Faker := fun _ => "A"

/-- A different faker entropy realization answering "B" to every draw. -/
def fkB : Faker := fun _ => "B"

def exCity : City := { cityID := 1, cityName := "Mumbai", state := "Maharashtra" }

def exU1 : User :=
  { userID := 1, username := "u1", email := "e1", passwordHash := "h1", phone := "p1",
    address := "A1", cityID := 1, signUpDate := 50, acquisitionChannelID := 1,
    referredBy := none, lastLoginDate := 50, isActive := true, preferences := "None" }

def exU2 : User :=
  { userID := 2, username := "u2", email := "e2", passwordHash := "h2", phone := "p2",
    address := "A2", cityID := 1, signUpDate := 100, acquisitionChannelID := 5,
    referredBy := none, lastLoginDate := 100, isActive := true, preferences := "None" }

def exR1 : Restaurant :=
  { restaurantID := 1, name := "R1", address := "AR1", cityID := 1, cuisine := "Chinese",
    rating := 4, operatingHours := "10:00 AM - 11:00 PM", contactNumber := "c1",
    isActive := false, openingDate := "d1" }

def exR2 : Restaurant :=
  { restaurantID := 2, name := "R2", address := "AR2", cityID := 1, cuisine := "Italian",
    rating := 4, operatingHours := "10:00 AM - 11:00 PM", contactNumber := "c2",
    isActive := true, openingDate := "d2" }

def exM1 : MenuItem :=
  { menuID := 1, restaurantID := 1, itemName := "I1", description := "D1", price := 50,
    category := "Main Course", cuisineType := "Chinese", isVegetarian := true,
    isAvailable := true }

def exM2 : MenuItem :=
  { menuID := 2, restaurantID := 2, itemName := "I2", description := "D2", price := 100,
    category := "Main Course", cuisineType := "Italian", isVegetarian := false,
    isAvailable := true }

/-- A one-day stage-2 configuration: one daily order (365 target orders over
365 baseline days) and a single bot user. -/
def exCfg : OrdersConfig :=
  { startDay := 0, numDays := 1, target_total_orders := 365,
    power_user_percentage := 1/5, weekend_only_user_percentage := 3/20,
    bot_users_count := 1 }

/-- A concrete stage-2 run on the fixture: under the all-zero stream the
daily loop creates one order (for user 2 at restaurant 2) and the bot pass
creates 50 orders for bot user 1, all at the inactive restaurant 1. -/
def exRun : List Order × List OrderItem :=
  generate_orders [exU1, exU2] [exR1, exR2] [exM1, exM2] exCfg gZero 0

/-- A delivered order of the fixture (used by the tracking and cart claims). -/
def exOrder : Order :=
  { orderID := 1, userID := 2, restaurantID := 2, orderTime := 1140, orderDate := 0,
    orderDay := "Monday", orderHour := 19, totalAmount := 100, deliveryFee := 0,
    discountAmount := 0, finalAmount := 100, orderStatus := "Delivered",
    deliveryAddress := "A2", paymentMethod := "UPI" }

/-- A cancelled order of the fixture. -/
def exOrderC : Order :=
  { orderID := 2, userID := 1, restaurantID := 2, orderTime := 2000, orderDate := 1,
    orderDay := "Tuesday", orderHour := 9, totalAmount := 50, deliveryFee := 30,
    discountAmount := 0, finalAmount := 80, orderStatus := "Cancelled",
    deliveryAddress := "A1", paymentMethod := "UPI" }

/-- The line item of `exOrder`. -/
def exItem : OrderItem :=
  { orderItemID := 1, orderID := 1, menuID := 2, quantity := 1, itemPrice := 100,
    subtotal := 100 }
theorem TwoDec.zero : TwoDec 0 := ⟨0, by norm_num⟩

theorem TwoDec.add {a b : ℚ} (ha : TwoDec a) (hb : TwoDec b) : TwoDec (a + b) := by
  obtain ⟨m, hm⟩ := ha
  obtain ⟨n, hn⟩ := hb
  exact ⟨m + n, by rw [hm, hn]; push_cast; ring⟩

theorem TwoDec.sub {a b : ℚ} (ha : TwoDec a) (hb : TwoDec b) : TwoDec (a - b) := by
  obtain ⟨m, hm⟩ := ha
  obtain ⟨n, hn⟩ := hb
  exact ⟨m - n, by rw [hm, hn]; push_cast; ring⟩

theorem TwoDec.natMul {a : ℚ} (ha : TwoDec a) (q : Nat) : TwoDec (a * q) := by
  obtain ⟨m, hm⟩ := ha
  exact ⟨m * q, by rw [hm]; push_cast; ring⟩

theorem TwoDec.ofInt (n : ℤ) : TwoDec (n : ℚ) := ⟨n * 100, by push_cast; ring⟩

theorem TwoDec.ofNat (n : Nat) : TwoDec (n : ℚ) := ⟨(n : ℤ) * 100, by push_cast; ring⟩

theorem round2_eq_self {q : ℚ} (h : TwoDec q) : round2 q = q := by
  obtain ⟨n, hn⟩ := h
  have h100 : q * 100 = (n : ℚ) := by rw [hn]; field_simp
  rw [round2, h100, round_intCast, hn]

theorem TwoDec.round2 (q : ℚ) : TwoDec (round2 q) := ⟨round (q * 100), rfl⟩

theorem round2_mono {a b : ℚ} (h : a ≤ b) : round2 a ≤ round2 b := by
  have hr : round (a * 100) ≤ round (b * 100) := by
    rw [round_eq, round_eq]
    exact Int.floor_mono (by nlinarith)
  rw [round2, round2]
  have h2 : ((round (a * 100) : ℤ) : ℚ) ≤ ((round (b * 100) : ℤ) : ℚ) := by exact_mod_cast hr
  linarith

theorem choiceD_mem {α : Type} {l : List α} (hl : l ≠ []) (d : α) (v : Nat) :
    choiceD l d v ∈ l := by
  have hlen : 0 < l.length := List.length_pos.mpr hl
  have hlt : v % l.length < l.length := Nat.mod_lt _ hlen
  rw [choiceD, List.getD_eq_get?, List.get?_eq_get hlt]
  exact List.get_mem _ _ _

theorem choice?_mem {α : Type} {l : List α} {x : α} {v : Nat} (h : choice? l v = some x) :
    x ∈ l := List.get?_mem h

theorem sampleWithout_subset {α : Type} (g : Rng) :
    ∀ (k n : Nat) (l : List α), ∀ x ∈ (sampleWithout g k n l).1, x ∈ l := by
  intro k n
  induction n generalizing k with
  | zero => intro l x hx; simp [sampleWithout] at hx
  | succ m ih =>
    intro l x hx
    match l with
    | [] => simp [sampleWithout] at hx
    | a :: as =>
      rw [sampleWithout] at hx
      simp only [List.mem_cons] at hx
      rcases hx with hx | hx
      · subst hx
        have hlen : g k % (a :: as).length < (a :: as).length :=
          Nat.mod_lt _ (by simp)
        rw [List.getD_eq_get?, List.get?_eq_get hlen]
        exact List.get_mem _ _ _
      · have := ih (k + 1) ((a :: as).eraseIdx (g k % (a :: as).length)) x hx
        exact List.eraseIdx_subset _ _ this

theorem randintZ_bounds {lo hi : ℤ} (h : lo ≤ hi) (v : Nat) :
    lo ≤ randintZ lo hi v ∧ randintZ lo hi v ≤ hi := by
  have hm : (0 : ℤ) < hi + 1 - lo := by omega
  have h1 : 0 ≤ (v : ℤ) % (hi + 1 - lo) := Int.emod_nonneg _ (by omega)
  have h2 : (v : ℤ) % (hi + 1 - lo) < hi + 1 - lo := Int.emod_lt_of_pos _ hm
  rw [randintZ]
  omega

theorem randintN_bounds {lo hi : Nat} (h : lo ≤ hi) (v : Nat) :
    lo ≤ randintN lo hi v ∧ randintN lo hi v ≤ hi := by
  have h2 : v % (hi + 1 - lo) < hi + 1 - lo := Nat.mod_lt _ (by omega)
  rw [randintN]
  omega

theorem randUniform_bounds {lo hi : ℚ} (h : lo ≤ hi) (v : Nat) :
    lo ≤ randUniform lo hi v ∧ randUniform lo hi v ≤ hi := by
  have hlt : v % 1001 < 1001 := Nat.mod_lt _ (by omega)
  have h1 : (0 : ℚ) ≤ ((v % 1001 : Nat) : ℚ) := by positivity
  have h2 : ((v % 1001 : Nat) : ℚ) ≤ 1000 := by exact_mod_cast Nat.le_of_lt_succ hlt
  rw [randUniform]
  constructor
  · nlinarith
  · nlinarith

theorem choice?_of_ne_nil {α : Type} {l : List α} (hl : l ≠ []) (v : Nat) :
    ∃ x, choice? l v = some x ∧ x ∈ l := by
  have hlen : 0 < l.length := List.length_pos.mpr hl
  have hlt : v % l.length < l.length := Nat.mod_lt _ hlen
  rw [choice?, List.get?_eq_get hlt]
  exact ⟨_, rfl, List.get_mem _ _ _⟩

theorem TwoDec.listSum : ∀ {l : List ℚ}, (∀ x ∈ l, TwoDec x) → TwoDec l.sum := by
  intro l
  induction l with
  | nil => intro _; simpa using TwoDec.zero
  | cons a as ih =>
    intro h
    rw [List.sum_cons]
    exact TwoDec.add (h a (by simp)) (ih (fun x hx => h x (by simp [hx])))

theorem round2_le_of_le {q c : ℚ} (hc : TwoDec c) (h : q ≤ c) : round2 q ≤ c := by
  calc round2 q ≤ round2 c := round2_mono h
  _ = c := round2_eq_self hc

theorem le_round2_of_le {q c : ℚ} (hc : TwoDec c) (h : c ≤ q) : c ≤ round2 q := by
  calc c = round2 c := (round2_eq_self hc).symm
  _ ≤ round2 q := round2_mono h

/-- Rating synthesis of `generate_restaurants`: every produced restaurant
draws its rating as `round2 (uniform(3, 5) + bias)` with the metro bias. -/
theorem restaurantsLoop_rating (g : Rng) (fk : Faker) (cities : List City) :
    ∀ (n i k j : Nat), ∀ r ∈ restaurantsLoop g fk cities n i k j,
      ∃ c ∈ cities, c.cityID = r.cityID ∧
        ∃ u : ℚ, 3 ≤ u ∧ u ≤ 5 ∧
          r.rating = round2 (u + (if metro_cities.contains c.cityName then 3/10 else 0)) := by
  intro n
  induction n with
  | zero => intro i k j r hr; simp [restaurantsLoop] at hr
  | succ m ih =>
    intro i k j r hr
    rw [restaurantsLoop] at hr
    cases hc : choice? cities (g k) with
    | none => rw [hc] at hr; simp at hr
    | some city =>
      rw [hc] at hr
      simp only [List.mem_cons] at hr
      rcases hr with hr | hr
      · refine ⟨city, choice?_mem hc, ?_, randUniform 3 5 (g (k + 3)), ?_, ?_, ?_⟩
        · rw [hr]
        · exact (randUniform_bounds (by norm_num) _).1
        · exact (randUniform_bounds (by norm_num) _).2
        · rw [hr]
      · exact ih (i + 1) (k + 5) (j + 3) r hr

/-- C7: every generated Restaurant draws Rating = round(uniform(3.0, 5.0) +
bonus, 2) where the bonus is 0.3 exactly when its city is one of the five
named metros and 0 otherwise; hence the rating lies in [3.0, 5.3] and can
exceed 5.0 only for metro-city restaurants (no upper clamp is applied). -/
theorem restaurant_rating_spec (g : Rng) (fk : Faker) (num : Nat)
    (cities : List City) (k j : Nat) :
    ∀ r ∈ generate_restaurants g fk num cities k j,
      ∃ c ∈ cities, c.cityID = r.cityID ∧
        (∃ u : ℚ, 3 ≤ u ∧ u ≤ 5 ∧
          r.rating = round2 (u + (if metro_cities.contains c.cityName then 3/10 else 0))) ∧
        3 ≤ r.rating ∧ r.rating ≤ 53/10 ∧
        (5 < r.rating → metro_cities.contains c.cityName = true) := by
  intro r hr
  obtain ⟨c, hcmem, hcid, u, hu3, hu5, hru⟩ :=
    restaurantsLoop_rating g fk cities num 1 k j r hr
  have hb0 : (0 : ℚ) ≤ (if metro_cities.contains c.cityName then (3/10 : ℚ) else 0) := by
    split <;> norm_num
  have hb1 : (if metro_cities.contains c.cityName then (3/10 : ℚ) else 0) ≤ 3/10 := by
    split <;> norm_num
  have hlo : 3 ≤ r.rating := by
    rw [hru]
    exact le_round2_of_le ⟨300, by norm_num⟩ (by linarith)
  have hhi : r.rating ≤ 53/10 := by
    rw [hru]
    exact round2_le_of_le ⟨530, by norm_num⟩ (by linarith)
  refine ⟨c, hcmem, hcid, ⟨u, hu3, hu5, hru⟩, hlo, hhi, ?_⟩
  intro h5
  by_contra hnm
  simp only [Bool.not_eq_true] at hnm
  have hcond : ¬ (metro_cities.contains c.cityName = true) := by
    rw [hnm]; exact Bool.false_ne_true
  have hb : (if metro_cities.contains c.cityName then (3/10 : ℚ) else 0) = 0 := if_neg hcond
  have : r.rating ≤ 5 := by
    rw [hru, hb, add_zero]
    exact round2_le_of_le ⟨500, by norm_num⟩ hu5
  linarith

/-- The tracking rows are exactly the Delivered orders, in order, keyed by
order id. -/
theorem generate_delivery_tracking_ids (g : Rng) :
    ∀ (orders : List Order) (k : Nat),
      (generate_delivery_tracking g orders k).1.map (fun d => d.orderID) =
        (orders.filter (fun o => o.orderStatus == "Delivered")).map
          (fun o => o.orderID) := by
  intro orders
  induction orders with
  | nil => intro k; simp [generate_delivery_tracking]
  | cons o os ih =>
    intro k
    rw [generate_delivery_tracking]
    cases hs : (o.orderStatus == "Delivered") with
    | true => simp [hs, List.filter_cons_of_pos, ih]
    | false => simp [hs, List.filter_cons_of_neg, ih]

/-- Per-row time bounds of the tracking builder: the actual delivery is
never before dispatch, and dispatch is at or after the generating order's
time. -/
theorem generate_delivery_tracking_times (g : Rng) :
    ∀ (orders : List Order) (k : Nat), ∀ d ∈ (generate_delivery_tracking g orders k).1,
      d.dispatchTime ≤ d.actualDeliveryTime ∧
      ∃ o ∈ orders, o.orderID = d.orderID ∧ o.orderTime ≤ d.dispatchTime := by
  intro orders
  induction orders with
  | nil => intro k d hd; simp [generate_delivery_tracking] at hd
  | cons o os ih =>
    intro k d hd
    rw [generate_delivery_tracking] at hd
    cases hs : (o.orderStatus == "Delivered") with
    | false =>
      rw [hs] at hd
      simp only [Bool.false_eq_true, if_false] at hd
      obtain ⟨h1, o2, ho2, h3⟩ := ih k d hd
      exact ⟨h1, o2, List.mem_cons_of_mem _ ho2, h3⟩
    | true =>
      rw [hs] at hd
      simp only [if_true] at hd
      rcases List.mem_cons.mp hd with hd | hd
      · subst hd
        constructor
        · by_cases ho : randUnit (g (k + 3)) < 5/100
          · simp only [if_pos ho]
            have := (randintZ_bounds (by norm_num : (60 : ℤ) ≤ 120) (g (k + 4))).1
            omega
          · simp only [if_neg ho]
            have h1 := (randintZ_bounds (by norm_num : (20 : ℤ) ≤ 40) (g (k + 1))).1
            have h2 := (randintZ_bounds (by norm_num : (-10 : ℤ) ≤ 15) (g (k + 2))).1
            omega
        · refine ⟨o, List.mem_cons_self _ _, rfl, ?_⟩
          have := (randintZ_bounds (by norm_num : (5 : ℤ) ≤ 15) (g k)).1
          dsimp only
          omega
      · obtain ⟨h1, o2, ho2, h3⟩ := ih _ d hd
        exact ⟨h1, o2, List.mem_cons_of_mem _ ho2, h3⟩

/-- C4: for every DeliveryTracking row, actual delivery time is at or after
dispatch, dispatch is at or after the corresponding order's OrderTime, and
(given distinct order ids) exactly one tracking row exists per order whose
status is Delivered, zero for any other status (in particular Cancelled). -/
theorem delivery_tracking_spec (g : Rng) (orders : List Order) (k : Nat)
    (hnd : (orders.map (fun o => o.orderID)).Nodup) :
    (∀ d ∈ (generate_delivery_tracking g orders k).1,
        d.dispatchTime ≤ d.actualDeliveryTime ∧
        ∀ o ∈ orders, o.orderID = d.orderID → o.orderTime ≤ d.dispatchTime) ∧
    (∀ o ∈ orders,
        (generate_delivery_tracking g orders k).1.countP
          (fun d => d.orderID == o.orderID) =
          if o.orderStatus = "Delivered" then 1 else 0) := by
  have hinj := List.inj_on_of_nodup_map hnd
  constructor
  · intro d hd
    obtain ⟨h1, o0, ho0, hid, hle⟩ := generate_delivery_tracking_times g orders k d hd
    refine ⟨h1, ?_⟩
    intro o ho hoid
    have : o = o0 := hinj ho ho0 (by rw [hoid, hid])
    rw [this]
    exact hle
  · intro o ho
    have hmapc : (generate_delivery_tracking g orders k).1.countP
        (fun d => d.orderID == o.orderID) =
        ((generate_delivery_tracking g orders k).1.map (fun d => d.orderID)).count
          o.orderID := by
      rw [List.count, List.countP_map]
      rfl
    rw [hmapc, generate_delivery_tracking_ids]
    have hsub : ((orders.filter (fun o2 => o2.orderStatus == "Delivered")).map
        (fun o2 => o2.orderID)).Sublist (orders.map (fun o2 => o2.orderID)) :=
      (List.filter_sublist _).map _
    have hnd2 := hnd.sublist hsub
    by_cases hs : o.orderStatus = "Delivered"
    · rw [if_pos hs]
      refine List.count_eq_one_of_mem hnd2 ?_
      exact List.mem_map_of_mem _ (List.mem_filter.mpr ⟨ho, by simp [hs]⟩)
    · rw [if_neg hs]
      refine List.count_eq_zero.mpr ?_
      intro hmem
      obtain ⟨o2, ho2, hid⟩ := List.mem_map.mp hmem
      obtain ⟨ho2o, ho2s⟩ := List.mem_filter.mp ho2
      have : o2 = o := hinj ho2o ho hid
      rw [this] at ho2s
      simp at ho2s
      exact hs ho2s

/-- C8: if any required input table file is absent when stage 3 starts, the
run halts with an error naming the missing file, and no sessions, carts or
output files are produced (the error branch of `stage3_main` carries no
`Stage3Output`). -/
theorem stage3_missing_input_spec (present : String → Bool) (users : List User)
    (restaurants : List Restaurant) (menu : List MenuItem) (orders : List Order)
    (order_items : List OrderItem) (cfg : Stage3Config) (startDay endDay : ℤ)
    (g : Rng) (h : ∃ p ∈ required_files, present p.1 = false) :
    ∃ p ∈ required_files, present p.1 = false ∧
      stage3_main present users restaurants menu orders order_items cfg
        startDay endDay g = Except.error (p.2 ++ p.1) := by
  obtain ⟨p0, hp0, hmiss⟩ := h
  have hsome : (required_files.find? (fun p => !(present p.1))).isSome := by
    rw [List.find?_isSome]
    exact ⟨p0, hp0, by simp [hmiss]⟩
  obtain ⟨p1, hp1⟩ := Option.isSome_iff_exists.mp hsome
  refine ⟨p1, List.mem_of_find?_eq_some hp1, ?_, ?_⟩
  · have := List.find?_some hp1
    simpa using this
  · rw [stage3_main, stage3_check, hp1]

theorem stripRef_userID (u : User) : (stripRef u).userID = u.userID := rfl

theorem stripRef_core {u v : User} (h : stripRef u = stripRef v) :
    u.userID = v.userID ∧ u.signUpDate = v.signUpDate ∧
      u.acquisitionChannelID = v.acquisitionChannelID := by
  have h1 := congrArg User.userID h
  have h2 := congrArg User.signUpDate h
  have h3 := congrArg User.acquisitionChannelID h
  exact ⟨h1, h2, h3⟩

/-- A row of the evolving table has a same-core row in the original table. -/
theorem core_mem {cur users : List User} (hc : cur.map stripRef = users.map stripRef)
    {v : User} (hv : v ∈ cur) :
    ∃ w ∈ users, w.userID = v.userID ∧ w.signUpDate = v.signUpDate ∧
      w.acquisitionChannelID = v.acquisitionChannelID := by
  have hm : stripRef v ∈ users.map stripRef := hc ▸ List.mem_map_of_mem _ hv
  obtain ⟨w, hw, hsw⟩ := List.mem_map.mp hm
  obtain ⟨h1, h2, h3⟩ := stripRef_core hsw
  exact ⟨w, hw, h1, h2, h3⟩

/-- Back-filling `ReferredBy` never changes the core of the table. -/
theorem setReferredBy_strip (cur : List User) (uid rid : Nat) :
    (setReferredBy cur uid rid).map stripRef = cur.map stripRef := by
  rw [setReferredBy, List.map_map]
  apply List.map_congr_left
  intro v _
  by_cases h : v.userID == uid
  · rw [Function.comp_apply, if_pos h]
    rfl
  · rw [Function.comp_apply, if_neg h]

theorem setReferredBy_keeps {cur : List User} {v : User} (hv : v ∈ cur)
    {uid rid : Nat} (h : v.userID ≠ uid) : v ∈ setReferredBy cur uid rid := by
  refine List.mem_map.mpr ⟨v, hv, ?_⟩
  simp [h]

theorem setReferredBy_hits {cur : List User} {v : User} (hv : v ∈ cur)
    {uid rid : Nat} (h : v.userID = uid) :
    ∃ w ∈ setReferredBy cur uid rid, w.userID = uid ∧ w.referredBy = some rid := by
  refine ⟨_, List.mem_map.mpr ⟨v, hv, rfl⟩, ?_⟩
  simp [h]


/-- Invariant-carrying induction over the `add_referrals` loop.  `users` is
the original table, `cur` the evolving (back-filled) table, `pending` the
channel-5 rows still to process and `acc` the referral rows emitted so far. -/
theorem referralLoop_spec (g : Rng) (users : List User) :
    ∀ (pending cur : List User) (acc : List Referral) (k : Nat),
      cur.map stripRef = users.map stripRef →
      (∀ u ∈ pending, u ∈ users ∧ u.acquisitionChannelID = 5) →
      (pending.map (fun u => u.userID)).Nodup →
      (∀ ref ∈ acc, ReferralSpec users ref ∧
        ref.referredUserID ∉ pending.map (fun u => u.userID) ∧
        ∃ v ∈ cur, v.userID = ref.referredUserID ∧
          v.referredBy = some ref.referrerUserID) →
      (∀ u ∈ users, (∀ ref ∈ acc, ref.referredUserID ≠ u.userID) →
        ∃ v ∈ cur, v.userID = u.userID ∧ v.referredBy = u.referredBy) →
      (∀ ref ∈ (referralLoop g pending cur acc k).2.1, ReferralSpec users ref) ∧
      (∀ ref ∈ (referralLoop g pending cur acc k).2.1,
        ∃ v ∈ (referralLoop g pending cur acc k).1,
          v.userID = ref.referredUserID ∧ v.referredBy = some ref.referrerUserID) ∧
      (∀ ref ∈ (referralLoop g pending cur acc k).2.1,
        ref ∈ acc ∨ ref.referredUserID ∈ pending.map (fun u => u.userID)) ∧
      (∀ u ∈ users,
        (∀ ref ∈ (referralLoop g pending cur acc k).2.1,
          ref.referredUserID ≠ u.userID) →
        ∃ v ∈ (referralLoop g pending cur acc k).1,
          v.userID = u.userID ∧ v.referredBy = u.referredBy) ∧
      (∀ u ∈ pending, NoEarlier users u →
        ∀ ref ∈ (referralLoop g pending cur acc k).2.1,
          ref.referredUserID ≠ u.userID) := by
  intro pending
  induction pending with
  | nil =>
    intro cur acc k hcur _ _ hacc huntouched
    rw [referralLoop]
    refine ⟨fun ref hr => (hacc ref hr).1,
      fun ref hr => (hacc ref hr).2.2, fun ref hr => Or.inl hr,
      huntouched, fun u hu => absurd hu (List.not_mem_nil u)⟩
  | cons u rest ih =>
    intro cur acc k hcur hpend hnodup hacc huntouched
    have hu_users : u ∈ users := (hpend u (List.mem_cons_self u rest)).1
    have hu_ch : u.acquisitionChannelID = 5 := (hpend u (List.mem_cons_self u rest)).2
    have hnodup_tail : (rest.map (fun x => x.userID)).Nodup := by
      rw [List.map_cons] at hnodup
      exact hnodup.of_cons
    have hu_notin : u.userID ∉ rest.map (fun x => x.userID) := by
      rw [List.map_cons] at hnodup
      exact (List.nodup_cons.mp hnodup).1
    have hpend_tail : ∀ v ∈ rest, v ∈ users ∧ v.acquisitionChannelID = 5 :=
      fun v hv => hpend v (List.mem_cons_of_mem u hv)
    rw [referralLoop]
    by_cases hpot :
        (cur.filter (fun v => decide (v.signUpDate < u.signUpDate) &&
          v.userID != u.userID)).isEmpty
    · rw [if_pos hpot]
      have hacc_tail : ∀ ref ∈ acc, ReferralSpec users ref ∧
          ref.referredUserID ∉ rest.map (fun x => x.userID) ∧
          ∃ v ∈ cur, v.userID = ref.referredUserID ∧
            v.referredBy = some ref.referrerUserID := by
        intro ref hr
        refine ⟨(hacc ref hr).1, ?_, (hacc ref hr).2.2⟩
        intro hmem
        exact (hacc ref hr).2.1 (by rw [List.map_cons]; exact List.mem_cons_of_mem _ hmem)
      obtain ⟨c1, c2, c3, c4, c5⟩ := ih cur acc k hcur hpend_tail hnodup_tail
        hacc_tail huntouched
      refine ⟨c1, c2, ?_, c4, ?_⟩
      · intro ref hr
        rcases c3 ref hr with h | h
        · exact Or.inl h
        · exact Or.inr (by rw [List.map_cons]; exact List.mem_cons_of_mem _ h)
      · intro v hv hne ref hr
        rcases List.mem_cons.mp hv with hv | hv
        · subst hv
          rcases c3 ref hr with h | h
          · intro heq
            exact (hacc ref h).2.1
              (by rw [List.map_cons, heq]; exact List.mem_cons_self _ _)
          · intro heq
            rw [heq] at h
            exact hu_notin h
        · exact c5 v hv hne ref hr
    · rw [if_neg hpot]
      have hpot_ne : cur.filter (fun v => decide (v.signUpDate < u.signUpDate) &&
          v.userID != u.userID) ≠ [] := by
        intro hnil
        rw [hnil] at hpot
        exact hpot rfl
      have hreferrer := choiceD_mem hpot_ne u (g k)
      have href_filter := List.mem_filter.mp hreferrer
      have href_cur := href_filter.1
      have href_lt : (choiceD (cur.filter (fun v =>
          decide (v.signUpDate < u.signUpDate) && v.userID != u.userID)) u
            (g k)).signUpDate < u.signUpDate := by
        have := (Bool.and_eq_true _ _).mp href_filter.2
        exact of_decide_eq_true this.1
      have href_ne : (choiceD (cur.filter (fun v =>
          decide (v.signUpDate < u.signUpDate) && v.userID != u.userID)) u
            (g k)).userID ≠ u.userID := by
        have := (Bool.and_eq_true _ _).mp href_filter.2
        simpa using this.2
      obtain ⟨w, hw_users, hw_id, hw_sd, _⟩ := core_mem hcur href_cur
      have hrow_u : ∃ v ∈ cur, v.userID = u.userID := by
        have hm : stripRef u ∈ cur.map stripRef := by
          rw [hcur]
          exact List.mem_map_of_mem _ hu_users
        obtain ⟨v, hv_cur, hsv⟩ := List.mem_map.mp hm
        exact ⟨v, hv_cur, (stripRef_core hsv).1⟩
      obtain ⟨vu, hvu_cur, hvu_id⟩ := hrow_u
      obtain ⟨wu, hwu_mem, hwu_id, hwu_ref⟩ := setReferredBy_hits hvu_cur hvu_id
      have hacc2 : ∀ ref ∈ acc ++
          [{ referralID := acc.length + 1
             referrerUserID := (choiceD (cur.filter (fun v =>
               decide (v.signUpDate < u.signUpDate) && v.userID != u.userID)) u
                 (g k)).userID
             referredUserID := u.userID
             referralDate := u.signUpDate
             rewardAmount := choiceD [50, 75, 100] 50 (g (k + 1))
             rewardStatus := choiceD ["Paid", "Paid", "Paid", "Pending"] "Paid"
               (g (k + 2)) }],
          ReferralSpec users ref ∧
          ref.referredUserID ∉ rest.map (fun x => x.userID) ∧
          ∃ v ∈ setReferredBy cur u.userID (choiceD (cur.filter (fun v =>
            decide (v.signUpDate < u.signUpDate) && v.userID != u.userID)) u
              (g k)).userID,
            v.userID = ref.referredUserID ∧
            v.referredBy = some ref.referrerUserID := by
        intro ref hr
        rcases List.mem_append.mp hr with hr | hr
        · refine ⟨(hacc ref hr).1, ?_, ?_⟩
          · intro hmem
            exact (hacc ref hr).2.1
              (by rw [List.map_cons]; exact List.mem_cons_of_mem _ hmem)
          · obtain ⟨v, hv, hva, hvb⟩ := (hacc ref hr).2.2
            have hvne : v.userID ≠ u.userID := by
              rw [hva]
              intro heq
              exact (hacc ref hr).2.1
                (by rw [List.map_cons, heq]; exact List.mem_cons_self _ _)
            exact ⟨v, setReferredBy_keeps hv hvne, hva, hvb⟩
        · rw [List.mem_singleton.mp hr]
          refine ⟨⟨u, hu_users, rfl, hu_ch, w, hw_users, hw_id, ?_⟩,
            by simpa using hu_notin, wu, hwu_mem, hwu_id, hwu_ref⟩
          rw [hw_sd]
          exact href_lt
      have huntouched2 : ∀ v ∈ users,
          (∀ ref ∈ acc ++
            [{ referralID := acc.length + 1
               referrerUserID := (choiceD (cur.filter (fun v =>
                 decide (v.signUpDate < u.signUpDate) && v.userID != u.userID)) u
                   (g k)).userID
               referredUserID := u.userID
               referralDate := u.signUpDate
               rewardAmount := choiceD [50, 75, 100] 50 (g (k + 1))
               rewardStatus := choiceD ["Paid", "Paid", "Paid", "Pending"] "Paid"
                 (g (k + 2)) }], ref.referredUserID ≠ v.userID) →
          ∃ w2 ∈ setReferredBy cur u.userID (choiceD (cur.filter (fun v =>
            decide (v.signUpDate < u.signUpDate) && v.userID != u.userID)) u
              (g k)).userID,
            w2.userID = v.userID ∧ w2.referredBy = v.referredBy := by
        intro v hv hne
        have hne0 : u.userID ≠ v.userID :=
          hne _ (List.mem_append.mpr (Or.inr (List.mem_singleton.mpr rfl)))
        obtain ⟨w2, hw2, hw2a, hw2b⟩ := huntouched v hv
          (fun ref hr => hne ref (List.mem_append.mpr (Or.inl hr)))
        have hw2ne : w2.userID ≠ u.userID := by
          rw [hw2a]
          intro heq
          exact hne0 heq.symm
        exact ⟨w2, setReferredBy_keeps hw2 hw2ne, hw2a, hw2b⟩
      obtain ⟨c1, c2, c3, c4, c5⟩ := ih _ _ (k + 3)
        (by rw [setReferredBy_strip]; exact hcur) hpend_tail hnodup_tail hacc2 huntouched2
      refine ⟨c1, c2, ?_, c4, ?_⟩
      · intro ref hr
        rcases c3 ref hr with h | h
        · rcases List.mem_append.mp h with h | h
          · exact Or.inl h
          · refine Or.inr ?_
            rw [List.mem_singleton.mp h, List.map_cons]
            exact List.mem_cons_self _ _
        · exact Or.inr (by rw [List.map_cons]; exact List.mem_cons_of_mem _ h)
      · intro v hv hne ref hr
        rcases List.mem_cons.mp hv with hv | hv
        · exfalso
          obtain ⟨v0, hv0⟩ := List.exists_mem_of_ne_nil _ hpot_ne
          have hv0f := List.mem_filter.mp hv0
          have hv0_lt : v0.signUpDate < u.signUpDate := by
            have := (Bool.and_eq_true _ _).mp hv0f.2
            exact of_decide_eq_true this.1
          have hv0_ne : v0.userID ≠ u.userID := by
            have := (Bool.and_eq_true _ _).mp hv0f.2
            simpa using this.2
          obtain ⟨w0, hw0_users, hw0_id, hw0_sd, _⟩ := core_mem hcur hv0f.1
          subst hv
          exact hne w0 hw0_users (by rw [hw0_id]; exact hv0_ne)
            (by rw [hw0_sd]; exact hv0_lt)
        · exact c5 v hv hne ref hr

/-- C6: every Referral row links a referrer whose signup date is strictly
earlier (hence at most) the referred user's signup date, the referred user
was acquired through channel 5 — the channel named "Referral Program" — and
the referred user's ReferredBy field is back-filled with the referrer's id;
a channel-5 user with no earlier-signed-up other user is skipped silently:
no referral row names them and their ReferredBy is left unchanged. -/
theorem referrals_spec (g : Rng) (users : List User) (k : Nat)
    (hnd : (users.map (fun u => u.userID)).Nodup) :
    (∃ ch ∈ generate_acquisition_channels, ch.channelID = 5 ∧
      ch.channelName = "Referral Program") ∧
    (∀ ref ∈ (add_referrals g users k).2.1,
      ReferralSpec users ref ∧
      ∃ v ∈ (add_referrals g users k).1,
        v.userID = ref.referredUserID ∧ v.referredBy = some ref.referrerUserID) ∧
    (∀ u ∈ users, u.acquisitionChannelID = 5 → NoEarlier users u →
      (∀ ref ∈ (add_referrals g users k).2.1, ref.referredUserID ≠ u.userID) ∧
      ∃ v ∈ (add_referrals g users k).1,
        v.userID = u.userID ∧ v.referredBy = u.referredBy) := by
  have hpend : ∀ u ∈ users.filter (fun u => u.acquisitionChannelID == 5),
      u ∈ users ∧ u.acquisitionChannelID = 5 := by
    intro u hu
    have := List.mem_filter.mp hu
    exact ⟨this.1, by simpa using this.2⟩
  have hnodup_pending :
      ((users.filter (fun u => u.acquisitionChannelID == 5)).map
        (fun u => u.userID)).Nodup :=
    hnd.sublist ((List.filter_sublist _).map _)
  obtain ⟨c1, c2, c3, c4, c5⟩ := referralLoop_spec g users
    (users.filter (fun u => u.acquisitionChannelID == 5)) users [] k rfl
    hpend hnodup_pending (by intro ref hr; simp at hr)
    (fun u hu _ => ⟨u, hu, rfl, rfl⟩)
  refine ⟨⟨⟨5, "Referral Program", "User referrals"⟩, by decide, rfl, rfl⟩, ?_, ?_⟩
  · intro ref hr
    exact ⟨c1 ref hr, c2 ref hr⟩
  · intro u hu hch hne
    have hu_pend : u ∈ users.filter (fun x => x.acquisitionChannelID == 5) :=
      List.mem_filter.mpr ⟨hu, by simp [hch]⟩
    have hnoref := c5 u hu_pend hne
    exact ⟨hnoref, c4 u hu hnoref⟩

theorem mem_range'_bounds {m s n : Nat} (h : m ∈ List.range' s n) :
    s ≤ m ∧ m < s + n := by
  obtain ⟨i, hi, he⟩ := List.mem_range'.mp h
  omega

theorem SegInv.empty (oid : Nat) : SegInv oid [] [] oid := by
  refine ⟨by simp, by simp, ?_, ?_, ?_, ?_⟩ <;> intro x hx <;> simp at hx

theorem SegInv.append {oid oidM oid2 : Nat} {os1 os2 : List Order}
    {its1 its2 : List OrderItem} (h1 : SegInv oid os1 its1 oidM)
    (h2 : SegInv oidM os2 its2 oid2) :
    SegInv oid (os1 ++ os2) (its1 ++ its2) oid2 := by
  obtain ⟨hlen1, hids1, hbnd1, hsub1, hsum1, hfin1⟩ := h1
  obtain ⟨hlen2, hids2, hbnd2, hsub2, hsum2, hfin2⟩ := h2
  have hoid_le : oid ≤ oidM := by omega
  refine ⟨by simp; omega, ?_, ?_, ?_, ?_, ?_⟩
  · rw [List.map_append, hids1, hids2, List.length_append, hlen1]
    have := List.range'_append_1 oid os1.length os2.length
    rw [Nat.add_comm os2.length os1.length] at this
    exact this
  · intro it hit
    rcases List.mem_append.mp hit with h | h
    · have := hbnd1 it h
      omega
    · have := hbnd2 it h
      omega
  · intro it hit
    rcases List.mem_append.mp hit with h | h
    · exact hsub1 it h
    · exact hsub2 it h
  · intro o ho
    rcases List.mem_append.mp ho with h | h
    · have hoid : o.orderID < oidM := by
        have := mem_range'_bounds (hids1 ▸ List.mem_map_of_mem (fun x : Order => x.orderID) h)
        omega
      rw [List.filter_append]
      have hnil : its2.filter (fun it => it.orderID == o.orderID) = [] := by
        rw [List.filter_eq_nil_iff]
        intro it hit
        have := hbnd2 it hit
        simp only [beq_iff_eq]
        omega
      rw [hnil, List.append_nil]
      exact hsum1 o h
    · have hoid : oidM ≤ o.orderID := by
        have := mem_range'_bounds (hids2 ▸ List.mem_map_of_mem (fun x : Order => x.orderID) h)
        omega
      rw [List.filter_append]
      have hnil : its1.filter (fun it => it.orderID == o.orderID) = [] := by
        rw [List.filter_eq_nil_iff]
        intro it hit
        have := hbnd1 it hit
        simp only [beq_iff_eq]
        omega
      rw [hnil, List.nil_append]
      exact hsum2 o h
  · intro o ho
    rcases List.mem_append.mp ho with h | h
    · exact hfin1 o h
    · exact hfin2 o h

theorem SegInv.single {oid : Nat} {o : Order} {its : List OrderItem}
    (hid : o.orderID = oid) (hits : ∀ it ∈ its, it.orderID = oid)
    (hsub : ∀ it ∈ its, it.subtotal = (it.quantity : ℚ) * it.itemPrice)
    (hsum : (its.map (fun it => it.subtotal)).sum = o.totalAmount)
    (hfin : FinalAmountSpec o) : SegInv oid [o] its (oid + 1) := by
  refine ⟨by simp, by simp [hid], ?_, hsub, ?_, ?_⟩
  · intro it hit
    have := hits it hit
    omega
  · intro o2 ho2
    rw [List.mem_singleton.mp ho2]
    have hfe : its.filter (fun it => it.orderID == o.orderID) = its := by
      rw [List.filter_eq_self]
      intro it hit
      simp [hits it hit, hid]
    rw [hfe]
    exact hsum
  · intro o2 ho2
    rw [List.mem_singleton.mp ho2]
    exact hfin

theorem buildItems_spec (g : Rng) (oid : Nat) :
    ∀ (sel : List MenuItem) (oiid k : Nat),
      (∀ it ∈ (buildItems g oid sel oiid k).1,
        it.orderID = oid ∧ it.subtotal = (it.quantity : ℚ) * it.itemPrice ∧
        ∃ m ∈ sel, it.itemPrice = m.price) ∧
      ((buildItems g oid sel oiid k).1.map (fun it => it.subtotal)).sum =
        (buildItems g oid sel oiid k).2.1 := by
  intro sel
  induction sel with
  | nil => intro oiid k; refine ⟨?_, by simp [buildItems]⟩; intro it hit
           simp [buildItems] at hit
  | cons item rest ih =>
    intro oiid k
    obtain ⟨ih1, ih2⟩ := ih (oiid + 1) (k + 1)
    constructor
    · intro it hit
      rw [buildItems] at hit
      rcases List.mem_cons.mp hit with h | h
      · subst h
        refine ⟨rfl, ?_, item, List.mem_cons_self _ _, rfl⟩
        exact mul_comm item.price _
      · obtain ⟨ha, hb, m, hm, hc⟩ := ih1 it h
        exact ⟨ha, hb, m, List.mem_cons_of_mem _ hm, hc⟩
    · rw [buildItems]
      simp only [List.map_cons, List.sum_cons]
      rw [ih2]

theorem pickRestaurant_spec {restaurants : List Restaurant} {cityID : Nat} {v : Nat}
    {r : Restaurant} (h : pickRestaurant restaurants cityID v = some r) :
    r ∈ restaurants ∧ r.isActive = true ∧
      (restaurants.filter (fun r2 => r2.cityID == cityID && r2.isActive) ≠ [] →
        r.cityID = cityID) := by
  rw [pickRestaurant] at h
  by_cases hc : (restaurants.filter (fun r2 => r2.cityID == cityID && r2.isActive)).isEmpty
  · rw [if_pos hc] at h
    have hmem := choice?_mem h
    have hf := List.mem_filter.mp hmem
    refine ⟨hf.1, hf.2, ?_⟩
    intro hne
    exact absurd (List.isEmpty_iff.mp hc) hne
  · rw [if_neg hc] at h
    have hmem := choice?_mem h
    have hf := List.mem_filter.mp hmem
    have hand := (Bool.and_eq_true _ _).mp hf.2
    exact ⟨hf.1, hand.2, fun _ => by simpa using hand.1⟩

theorem finishOrder_spec (oid uid restaurantID : Nat) (order_time date : ℤ)
    (dn : String) (order_hour : Nat) (total_amount : ℚ) (address : String)
    (g : Rng) (k5 : Nat) (ht : TwoDec total_amount) :
    (finishOrder oid uid restaurantID order_time date dn order_hour total_amount
      address g k5).1.orderID = oid ∧
    (finishOrder oid uid restaurantID order_time date dn order_hour total_amount
      address g k5).1.userID = uid ∧
    (finishOrder oid uid restaurantID order_time date dn order_hour total_amount
      address g k5).1.restaurantID = restaurantID ∧
    (finishOrder oid uid restaurantID order_time date dn order_hour total_amount
      address g k5).1.orderTime = order_time ∧
    (finishOrder oid uid restaurantID order_time date dn order_hour total_amount
      address g k5).1.totalAmount = total_amount ∧
    FinalAmountSpec (finishOrder oid uid restaurantID order_time date dn order_hour
      total_amount address g k5).1 := by
  have htot : round2 total_amount = total_amount := round2_eq_self ht
  unfold finishOrder FinalAmountSpec
  dsimp only
  rw [htot]
  refine ⟨rfl, rfl, rfl, rfl, rfl, rfl, ?_⟩
  intro hne
  by_cases hgt : 500 < total_amount
  · rw [if_pos hgt] at hne ⊢
    refine ⟨hgt, ?_⟩
    have hc : choiceD [(0 : ℚ), 0, 10/100, 15/100] 0 (g (k5 + 1)) = 0 ∨
        choiceD [(0 : ℚ), 0, 10/100, 15/100] 0 (g (k5 + 1)) = 10/100 ∨
        choiceD [(0 : ℚ), 0, 10/100, 15/100] 0 (g (k5 + 1)) = 15/100 := by
      have := choiceD_mem (l := [(0 : ℚ), 0, 10/100, 15/100]) (by simp) 0 (g (k5 + 1))
      simpa using this
    rcases hc with h | h | h
    · exfalso
      rw [h, mul_zero] at hne
      exact hne (round2_eq_self TwoDec.zero)
    · left
      rw [h]
    · right
      rw [h]
  · exfalso
    rw [if_neg hgt] at hne
    exact hne rfl

theorem genOneOrderItems_spec (menu : List MenuItem) (date : ℤ) (dn : String)
    (oid oiid : Nat) (g : Rng) (uid restaurantID : Nat) (address : String)
    (order_hour : Nat) (order_time : ℤ) (k3 : Nat)
    (hp : ∀ m ∈ menu, TwoDec m.price) :
    ∀ o its, (genOneOrderItems menu date dn oid oiid g uid restaurantID address
        order_hour order_time k3).1 = some (o, its) →
      o.orderID = oid ∧ o.userID = uid ∧ o.restaurantID = restaurantID ∧
      (∀ it ∈ its, it.orderID = oid) ∧
      (∀ it ∈ its, it.subtotal = (it.quantity : ℚ) * it.itemPrice) ∧
      (its.map (fun it => it.subtotal)).sum = o.totalAmount ∧
      FinalAmountSpec o := by
  intro o its heq
  unfold genOneOrderItems at heq
  dsimp only at heq
  rw [Option.some.injEq, Prod.mk.injEq] at heq
  obtain ⟨ho, hits⟩ := heq
  set RM := menu.filter (fun m => m.restaurantID == restaurantID && m.isAvailable)
    with hRM
  set NI := if randUnit (g k3) < 55/100 then 1 else if randUnit (g k3) < 85/100 then 2
    else if randUnit (g k3) < 95/100 then 3 else 4 with hNI
  set SW := sampleWithout g (k3 + 1) (min NI RM.length) RM with hSW
  set B := buildItems g oid SW.1 oiid SW.2 with hB
  have bi := buildItems_spec g oid SW.1 oiid SW.2
  rw [← hB] at bi
  obtain ⟨bi1, bi2⟩ := bi
  have htB : TwoDec B.2.1 := by
    rw [← bi2]
    apply TwoDec.listSum
    intro x hx
    obtain ⟨it, hit, hxe⟩ := List.mem_map.mp hx
    obtain ⟨_, hsub, m, hm, hpr⟩ := bi1 it hit
    have hmRM : m ∈ RM := by
      rw [hSW] at hm
      exact sampleWithout_subset g (k3 + 1) (min NI RM.length) RM m hm
    rw [← hxe, hsub, hpr]
    have : TwoDec m.price := hp m (List.mem_filter.mp (hRM ▸ hmRM)).1
    rw [mul_comm]
    exact this.natMul _
  have fo := finishOrder_spec oid uid restaurantID order_time date dn order_hour
    B.2.1 address g B.2.2.2 htB
  subst ho
  subst hits
  refine ⟨fo.1, fo.2.1, fo.2.2.1, ?_, ?_, ?_, fo.2.2.2.2.2⟩
  · intro it hit
    exact (bi1 it hit).1
  · intro it hit
    exact (bi1 it hit).2.1
  · rw [bi2, fo.2.2.2.2.1]

theorem genOneOrder_some (users : List User) (restaurants : List Restaurant)
    (menu : List MenuItem) (pool : List Nat) (date : ℤ) (dn : String)
    (oid oiid : Nat) (g : Rng) (k : Nat) (hp : ∀ m ∈ menu, TwoDec m.price) :
    ∀ o its, (genOneOrder users restaurants menu pool date dn oid oiid g k).1 =
        some (o, its) →
      o.orderID = oid ∧
      (∀ it ∈ its, it.orderID = oid) ∧
      (∀ it ∈ its, it.subtotal = (it.quantity : ℚ) * it.itemPrice) ∧
      (its.map (fun it => it.subtotal)).sum = o.totalAmount ∧
      FinalAmountSpec o ∧
      RestaurantChoiceSpec users restaurants menu o := by
  intro o its heq
  rw [genOneOrder] at heq
  cases hu : choice? pool (g k) with
  | none => rw [hu] at heq; simp at heq
  | some uid =>
    rw [hu] at heq
    dsimp only at heq
    cases hfind : users.find? (fun u => u.userID == uid) with
    | none => rw [hfind] at heq; simp at heq
    | some user =>
      rw [hfind] at heq
      dsimp only at heq
      cases hrest : pickRestaurant restaurants user.cityID (g (k + 1)) with
      | none => rw [hrest] at heq; simp at heq
      | some restaurant =>
        rw [hrest] at heq
        dsimp only at heq
        by_cases hmenu : (menu.filter
            (fun m => m.restaurantID == restaurant.restaurantID &&
              m.isAvailable)).isEmpty
        · rw [if_pos hmenu] at heq
          simp at heq
        · rw [if_neg hmenu] at heq
          obtain ⟨h1, h2, h3, h4, h5, h6, h7⟩ :=
            genOneOrderItems_spec menu date dn oid oiid g uid
              restaurant.restaurantID user.address _ _ _ hp o its heq
          obtain ⟨hrmem, hract, hrcity⟩ := pickRestaurant_spec hrest
          refine ⟨h1, h4, h5, h6, h7, restaurant, hrmem, h3.symm, hract, ?_, ?_⟩
          · have hne : menu.filter (fun m => m.restaurantID == restaurant.restaurantID
                && m.isAvailable) ≠ [] := by
              intro hnil
              rw [hnil] at hmenu
              exact hmenu rfl
            obtain ⟨m0, hm0⟩ := List.exists_mem_of_ne_nil _ hne
            have hm0f := List.mem_filter.mp hm0
            have hand := (Bool.and_eq_true _ _).mp hm0f.2
            refine ⟨m0, hm0f.1, ?_, hand.2⟩
            rw [h3]
            simpa using hand.1
          · intro u hufind hcity
            rw [h2, hfind] at hufind
            have : user = u := Option.some.inj hufind
            subst this
            exact hrcity hcity

theorem map_ids_append {os1 os2 : List Order} {oid oidM : Nat}
    (h1 : os1.map (fun o => o.orderID) = List.range' oid os1.length)
    (hM : oidM = oid + os1.length)
    (h2 : os2.map (fun o => o.orderID) = List.range' oidM os2.length) :
    (os1 ++ os2).map (fun o => o.orderID) =
      List.range' oid (os1 ++ os2).length := by
  rw [List.map_append, h1, hM] at *
  rw [h2, List.length_append]
  have := List.range'_append_1 oid os1.length os2.length
  rw [Nat.add_comm os2.length os1.length] at this
  exact this

theorem genOneOrderItems_ids (menu : List MenuItem) (date : ℤ) (dn : String)
    (oid oiid : Nat) (g : Rng) (uid restaurantID : Nat) (address : String)
    (order_hour : Nat) (order_time : ℤ) (k3 : Nat) :
    ∀ o its, (genOneOrderItems menu date dn oid oiid g uid restaurantID address
        order_hour order_time k3).1 = some (o, its) →
      o.orderID = oid ∧ o.userID = uid ∧ o.restaurantID = restaurantID := by
  intro o its heq
  unfold genOneOrderItems at heq
  dsimp only at heq
  rw [Option.some.injEq, Prod.mk.injEq] at heq
  obtain ⟨ho, _⟩ := heq
  subst ho
  exact ⟨rfl, rfl, rfl⟩

theorem genOneOrder_base (users : List User) (restaurants : List Restaurant)
    (menu : List MenuItem) (pool : List Nat) (date : ℤ) (dn : String)
    (oid oiid : Nat) (g : Rng) (k : Nat) :
    ∀ o its, (genOneOrder users restaurants menu pool date dn oid oiid g k).1 =
        some (o, its) →
      o.orderID = oid ∧ RestaurantChoiceSpec users restaurants menu o := by
  intro o its heq
  rw [genOneOrder] at heq
  cases hu : choice? pool (g k) with
  | none => rw [hu] at heq; simp at heq
  | some uid =>
    rw [hu] at heq
    dsimp only at heq
    cases hfind : users.find? (fun u => u.userID == uid) with
    | none => rw [hfind] at heq; simp at heq
    | some user =>
      rw [hfind] at heq
      dsimp only at heq
      cases hrest : pickRestaurant restaurants user.cityID (g (k + 1)) with
      | none => rw [hrest] at heq; simp at heq
      | some restaurant =>
        rw [hrest] at heq
        dsimp only at heq
        by_cases hmenu : (menu.filter
            (fun m => m.restaurantID == restaurant.restaurantID &&
              m.isAvailable)).isEmpty
        · rw [if_pos hmenu] at heq
          simp at heq
        · rw [if_neg hmenu] at heq
          obtain ⟨h1, h2, h3⟩ := genOneOrderItems_ids menu date dn oid oiid g uid
            restaurant.restaurantID user.address _ _ _ o its heq
          obtain ⟨hrmem, hract, hrcity⟩ := pickRestaurant_spec hrest
          refine ⟨h1, restaurant, hrmem, h3.symm, hract, ?_, ?_⟩
          · have hne : menu.filter (fun m => m.restaurantID == restaurant.restaurantID
                && m.isAvailable) ≠ [] := by
              intro hnil
              rw [hnil] at hmenu
              exact hmenu rfl
            obtain ⟨m0, hm0⟩ := List.exists_mem_of_ne_nil _ hne
            have hm0f := List.mem_filter.mp hm0
            have hand := (Bool.and_eq_true _ _).mp hm0f.2
            refine ⟨m0, hm0f.1, ?_, hand.2⟩
            rw [h3]
            simpa using hand.1
          · intro u hufind hcity
            rw [h2, hfind] at hufind
            have : user = u := Option.some.inj hufind
            subst this
            exact hrcity hcity

theorem genOrdersForDay_base (users : List User) (restaurants : List Restaurant)
    (menu : List MenuItem) (pool : List Nat) (date : ℤ) (dn : String) (g : Rng) :
    ∀ (n oid oiid k : Nat),
      (genOrdersForDay users restaurants menu pool date dn g n oid oiid k).2.2.1 =
        oid + (genOrdersForDay users restaurants menu pool date dn g n oid oiid k).1.length ∧
      (genOrdersForDay users restaurants menu pool date dn g n oid oiid k).1.map
        (fun o => o.orderID) =
        List.range' oid
          (genOrdersForDay users restaurants menu pool date dn g n oid oiid k).1.length ∧
      (∀ o ∈ (genOrdersForDay users restaurants menu pool date dn g n oid oiid k).1,
        RestaurantChoiceSpec users restaurants menu o) := by
  intro n
  induction n with
  | zero =>
    intro oid oiid k
    refine ⟨by simp [genOrdersForDay], by simp [genOrdersForDay], ?_⟩
    intro o ho
    simp [genOrdersForDay] at ho
  | succ m ih =>
    intro oid oiid k
    rw [genOrdersForDay]
    rcases hone : genOneOrder users restaurants menu pool date dn oid oiid g k with
      ⟨res, k2⟩
    cases res with
    | none =>
      dsimp only
      exact ih oid oiid k2
    | some p =>
      rcases p with ⟨o, its⟩
      dsimp only
      obtain ⟨ih1, ih2, ih3⟩ := ih (oid + 1) (oiid + its.length) k2
      have hone1 : (genOneOrder users restaurants menu pool date dn oid oiid g k).1 =
          some (o, its) := by rw [hone]
      obtain ⟨hid, hrc⟩ := genOneOrder_base users restaurants menu pool date dn
        oid oiid g k o its hone1
      refine ⟨by simp [ih1]; omega, ?_, ?_⟩
      · have hids : ([o] ++ (genOrdersForDay users restaurants menu pool date dn g m
            (oid + 1) (oiid + its.length) k2).1).map (fun x => x.orderID) =
            List.range' oid ([o] ++ (genOrdersForDay users restaurants menu pool date
              dn g m (oid + 1) (oiid + its.length) k2).1).length :=
          map_ids_append (by simp [hid]) (by simp) ih2
        simpa using hids
      · intro o2 ho2
        rcases List.mem_cons.mp ho2 with h | h
        · rw [h]
          exact hrc
        · exact ih3 o2 h

theorem genDays_base (users : List User) (restaurants : List Restaurant)
    (menu : List MenuItem) (weekdayPool weekendPool : List Nat) (cfg : OrdersConfig)
    (g : Rng) :
    ∀ (n d oid oiid k : Nat),
      (genDays users restaurants menu weekdayPool weekendPool cfg g d n oid oiid k).2.2.1 =
        oid + (genDays users restaurants menu weekdayPool weekendPool cfg g
          d n oid oiid k).1.length ∧
      (genDays users restaurants menu weekdayPool weekendPool cfg g d n oid oiid k).1.map
        (fun o => o.orderID) =
        List.range' oid (genDays users restaurants menu weekdayPool weekendPool cfg g
          d n oid oiid k).1.length ∧
      (∀ o ∈ (genDays users restaurants menu weekdayPool weekendPool cfg g
          d n oid oiid k).1,
        RestaurantChoiceSpec users restaurants menu o) := by
  intro n
  induction n with
  | zero =>
    intro d oid oiid k
    refine ⟨by simp [genDays], by simp [genDays], ?_⟩
    intro o ho
    simp [genDays] at ho
  | succ m ih =>
    intro d oid oiid k
    rw [genDays]
    dsimp only
    obtain ⟨hd1, hd2, hd3⟩ := genOrdersForDay_base users restaurants menu
      (if 5 ≤ weekdayNum (cfg.startDay + d) then weekendPool else weekdayPool)
      (cfg.startDay + d) (dayName (weekdayNum (cfg.startDay + d))) g
      ((pyInt (if 5 ≤ weekdayNum (cfg.startDay + d) then
        ((cfg.target_total_orders : ℚ) / 365) * (14/10) *
          (1 + (d : ℚ) / 30 * (3/100))
      else ((cfg.target_total_orders : ℚ) / 365) *
        (1 + (d : ℚ) / 30 * (3/100)))).toNat) oid oiid k
    obtain ⟨ih1, ih2, ih3⟩ := ih (d + 1) _ _ _
    refine ⟨?_, ?_, ?_⟩
    · rw [List.length_append, ih1, hd1]
      omega
    · exact map_ids_append hd2 hd1 ih2
    · intro o ho
      rcases List.mem_append.mp ho with h | h
      · exact hd3 o h
      · exact ih3 o h

/-- C9: every order created by the daily order-synthesis loop uses an active
restaurant with at least one available menu item, located in the ordering
user's city whenever that city has any active restaurant; and order ids are
consecutive from the starting id, advancing only on successful creation
(an iteration skipped for an empty menu consumes no id). -/
theorem daily_order_synthesis_spec (users : List User) (restaurants : List Restaurant)
    (menu : List MenuItem) (weekdayPool weekendPool : List Nat) (cfg : OrdersConfig)
    (g : Rng) (d n oid oiid k : Nat) :
    (∀ o ∈ (genDays users restaurants menu weekdayPool weekendPool cfg g
        d n oid oiid k).1,
      RestaurantChoiceSpec users restaurants menu o) ∧
    (genDays users restaurants menu weekdayPool weekendPool cfg g d n oid oiid k).1.map
      (fun o => o.orderID) =
      List.range' oid (genDays users restaurants menu weekdayPool weekendPool cfg g
        d n oid oiid k).1.length ∧
    (genDays users restaurants menu weekdayPool weekendPool cfg g d n oid oiid k).2.2.1 =
      oid + (genDays users restaurants menu weekdayPool weekendPool cfg g
        d n oid oiid k).1.length := by
  obtain ⟨h1, h2, h3⟩ := genDays_base users restaurants menu weekdayPool weekendPool
    cfg g n d oid oiid k
  exact ⟨h3, h2, h1⟩

theorem genOrdersForDay_seg (users : List User) (restaurants : List Restaurant)
    (menu : List MenuItem) (pool : List Nat) (date : ℤ) (dn : String) (g : Rng)
    (hp : ∀ m ∈ menu, TwoDec m.price) :
    ∀ (n oid oiid k : Nat),
      SegInv oid (genOrdersForDay users restaurants menu pool date dn g n oid oiid k).1
        (genOrdersForDay users restaurants menu pool date dn g n oid oiid k).2.1
        (genOrdersForDay users restaurants menu pool date dn g n oid oiid k).2.2.1 := by
  intro n
  induction n with
  | zero =>
    intro oid oiid k
    rw [genOrdersForDay]
    exact SegInv.empty oid
  | succ m ih =>
    intro oid oiid k
    rw [genOrdersForDay]
    rcases hone : genOneOrder users restaurants menu pool date dn oid oiid g k with
      ⟨res, k2⟩
    cases res with
    | none =>
      dsimp only
      exact ih oid oiid k2
    | some p =>
      rcases p with ⟨o, its⟩
      dsimp only
      have hone1 : (genOneOrder users restaurants menu pool date dn oid oiid g k).1 =
          some (o, its) := by rw [hone]
      obtain ⟨h1, h2, h3, h4, h5, _⟩ := genOneOrder_some users restaurants menu pool
        date dn oid oiid g k hp o its hone1
      have hsingle : SegInv oid [o] its (oid + 1) := SegInv.single h1 h2 h3 h4 h5
      have happ := hsingle.append (ih (oid + 1) (oiid + its.length) k2)
      simpa using happ

theorem genDays_seg (users : List User) (restaurants : List Restaurant)
    (menu : List MenuItem) (weekdayPool weekendPool : List Nat) (cfg : OrdersConfig)
    (g : Rng) (hp : ∀ m ∈ menu, TwoDec m.price) :
    ∀ (n d oid oiid k : Nat),
      SegInv oid
        (genDays users restaurants menu weekdayPool weekendPool cfg g d n oid oiid k).1
        (genDays users restaurants menu weekdayPool weekendPool cfg g d n oid oiid k).2.1
        (genDays users restaurants menu weekdayPool weekendPool cfg g
          d n oid oiid k).2.2.1 := by
  intro n
  induction n with
  | zero =>
    intro d oid oiid k
    rw [genDays]
    exact SegInv.empty oid
  | succ m ih =>
    intro d oid oiid k
    rw [genDays]
    dsimp only
    exact (genOrdersForDay_seg users restaurants menu _ _ _ g hp _ oid oiid k).append
      (ih (d + 1) _ _ _)

theorem genBotBurst_seg (users : List User) (restaurants : List Restaurant)
    (menu : List MenuItem) (botUid : Nat) (botDate : ℤ) (g : Rng)
    (hp : ∀ m ∈ menu, TwoDec m.price) :
    ∀ (n oid oiid k : Nat),
      SegInv oid
        (genBotBurst users restaurants menu botUid botDate g n oid oiid k).1
        (genBotBurst users restaurants menu botUid botDate g n oid oiid k).2.1
        (genBotBurst users restaurants menu botUid botDate g n oid oiid k).2.2.1 := by
  intro n
  induction n with
  | zero =>
    intro oid oiid k
    rw [genBotBurst]
    exact SegInv.empty oid
  | succ m ih =>
    intro oid oiid k
    rw [genBotBurst]
    cases hrest : choice? restaurants (g k) with
    | none =>
      dsimp only
      exact ih oid oiid (k + 1)
    | some restaurant =>
      dsimp only
      by_cases hmenu : (menu.filter (fun m2 =>
          m2.restaurantID == restaurant.restaurantID && m2.isAvailable)).isEmpty
      · rw [if_pos hmenu]
        exact ih oid oiid (k + 1)
      · rw [if_neg hmenu]
        cases hitem : choice? (menu.filter (fun m2 =>
            m2.restaurantID == restaurant.restaurantID && m2.isAvailable))
            (g (k + 1)) with
        | none =>
          dsimp only
          exact ih oid oiid (k + 2)
        | some item =>
          dsimp only
          have hitem_menu : item ∈ menu :=
            (List.mem_filter.mp (choice?_mem hitem)).1
          have htd : TwoDec item.price := hp item hitem_menu
          have hsingle : SegInv oid
              [{ orderID := oid, userID := botUid,
                 restaurantID := restaurant.restaurantID,
                 orderTime := botDate * 1440 + (randintN 0 23 (g (k + 2)) : Nat) * 60 +
                   (randintN 0 59 (g (k + 3)) : Nat),
                 orderDate := botDate, orderDay := dayName (weekdayNum botDate),
                 orderHour := randintN 0 23 (g (k + 2)),
                 totalAmount := item.price, deliveryFee := 0, discountAmount := 0,
                 finalAmount := item.price, orderStatus := "Delivered",
                 deliveryAddress := (((users.find? (fun u => u.userID == botUid)).map
                   (fun u => u.address)).getD ""), paymentMethod := "UPI" }]
              [{ orderItemID := oiid, orderID := oid, menuID := item.menuID,
                 quantity := 1, itemPrice := item.price, subtotal := item.price }]
              (oid + 1) := by
            apply SegInv.single
            · rfl
            · intro it hit
              rw [List.mem_singleton.mp hit]
            · intro it hit
              rw [List.mem_singleton.mp hit]
              simp
            · simp
            · constructor
              · show item.price = round2 (item.price + 0 - 0)
                rw [add_zero, sub_zero, round2_eq_self htd]
              · intro hne
                exact absurd rfl hne
          exact hsingle.append (ih (oid + 1) (oiid + 1) (k + 4))

theorem genBotUsers_seg (users : List User) (restaurants : List Restaurant)
    (menu : List MenuItem) (startDay : ℤ) (g : Rng)
    (hp : ∀ m ∈ menu, TwoDec m.price) :
    ∀ (uids : List Nat) (oid oiid k : Nat),
      SegInv oid
        (genBotUsers users restaurants menu startDay g uids oid oiid k).1
        (genBotUsers users restaurants menu startDay g uids oid oiid k).2.1
        (genBotUsers users restaurants menu startDay g uids oid oiid k).2.2.1 := by
  intro uids
  induction uids with
  | nil =>
    intro oid oiid k
    rw [genBotUsers]
    exact SegInv.empty oid
  | cons uid rest ih =>
    intro oid oiid k
    rw [genBotUsers]
    dsimp only
    exact (genBotBurst_seg users restaurants menu uid _ g hp _ oid oiid (k + 2)).append
      (ih _ _ _)

/-- The full `generate_orders` output (daily pass then bot pass) satisfies
the segment bookkeeping invariant starting at order id 1. -/
theorem generate_orders_seg (users : List User) (restaurants : List Restaurant)
    (menu : List MenuItem) (cfg : OrdersConfig) (g : Rng) (k : Nat)
    (hp : ∀ m ∈ menu, TwoDec m.price) :
    ∃ oid2, SegInv 1 (generate_orders users restaurants menu cfg g k).1
      (generate_orders users restaurants menu cfg g k).2 oid2 := by
  rw [generate_orders]
  dsimp only
  exact ⟨_, (genDays_seg users restaurants menu _ _ cfg g hp cfg.numDays 0 1 1 _).append
    (genBotUsers_seg users restaurants menu cfg.startDay g hp _ _ _ _)⟩

/-- C2: for every generated Order row (daily and bot passes alike), given
that every menu price is a whole number of hundredths — which stage 1
guarantees by rounding every price to 2 decimals — FinalAmount equals
round(TotalAmount + DeliveryFee - DiscountAmount, 2) exactly (so in
particular within floating rounding tolerance), and DiscountAmount is
nonzero only when the pre-fee item subtotal (the stored TotalAmount)
exceeds 500, in which case it is round(0.10 or 0.15 times that subtotal, 2). -/
theorem orders_money_spec (users : List User) (restaurants : List Restaurant)
    (menu : List MenuItem) (cfg : OrdersConfig) (g : Rng) (k : Nat)
    (hp : ∀ m ∈ menu, TwoDec m.price) :
    ∀ o ∈ (generate_orders users restaurants menu cfg g k).1, FinalAmountSpec o := by
  obtain ⟨oid2, hseg⟩ := generate_orders_seg users restaurants menu cfg g k hp
  exact hseg.2.2.2.2.2

/-- C3: for every generated OrderItem row (from the daily loop and the
bot-injection pass alike), Subtotal equals Quantity times ItemPrice, and for
every generated Order the sum of its OrderItem subtotals equals that order's
stored TotalAmount (given 2-decimal menu prices, as stage 1 produces). -/
theorem order_items_sum_spec (users : List User) (restaurants : List Restaurant)
    (menu : List MenuItem) (cfg : OrdersConfig) (g : Rng) (k : Nat)
    (hp : ∀ m ∈ menu, TwoDec m.price) :
    (∀ it ∈ (generate_orders users restaurants menu cfg g k).2,
      it.subtotal = (it.quantity : ℚ) * it.itemPrice) ∧
    (∀ o ∈ (generate_orders users restaurants menu cfg g k).1,
      (((generate_orders users restaurants menu cfg g k).2.filter
        (fun it => it.orderID == o.orderID)).map (fun it => it.subtotal)).sum =
        o.totalAmount) := by
  obtain ⟨oid2, hseg⟩ := generate_orders_seg users restaurants menu cfg g k hp
  exact ⟨hseg.2.2.2.1, hseg.2.2.2.2.1⟩

theorem countP_id_eq_one {orders : List Order} :
    ∀ (hnd : (orders.map (fun o => o.orderID)).Nodup) {x : Nat},
      x ∈ orders.map (fun o => o.orderID) →
      orders.countP (fun o => x == o.orderID) = 1 := by
  induction orders with
  | nil => intro _ x hx; simp at hx
  | cons o os ih =>
    intro hnd x hx
    rw [List.map_cons] at hnd hx
    have hnd2 := List.nodup_cons.mp hnd
    rw [List.countP_cons]
    by_cases hxo : x = o.orderID
    · have hzero : os.countP (fun o2 => x == o2.orderID) = 0 := by
        rw [List.countP_eq_zero]
        intro o2 ho2
        simp only [beq_iff_eq]
        intro hx2
        have hmm : o2.orderID ∈ os.map (fun o3 => o3.orderID) :=
          List.mem_map_of_mem (fun o3 : Order => o3.orderID) ho2
        rw [← hx2, hxo] at hmm
        exact hnd2.1 hmm
      rw [hzero]
      simp [hxo]
    · have hxos : x ∈ os.map (fun o2 => o2.orderID) := by
        rcases List.mem_cons.mp hx with h | h
        · exact absurd h hxo
        · exact h
      rw [ih hnd2.2 hxos]
      simp [hxo]

theorem sum_map_len_cons (orders : List Order) (it : OrderItem)
    (rest : List OrderItem) :
    (orders.map (fun o =>
      ((it :: rest).filter (fun x => x.orderID == o.orderID)).length)).sum =
    orders.countP (fun o => it.orderID == o.orderID) +
    (orders.map (fun o =>
      (rest.filter (fun x => x.orderID == o.orderID)).length)).sum := by
  induction orders with
  | nil => simp
  | cons o os ih =>
    rw [List.map_cons, List.sum_cons, List.countP_cons, List.map_cons,
      List.sum_cons, ih, List.filter_cons]
    by_cases h : (it.orderID == o.orderID)
    · rw [if_pos h]
      simp [h]
      omega
    · rw [if_neg h]
      simp [h]
      omega

/-- Under distinct order ids and full coverage of item order ids, summing the
per-order matched-item counts recovers the total item count. -/
theorem sum_filter_lengths {orders : List Order}
    (hnd : (orders.map (fun o => o.orderID)).Nodup) :
    ∀ (items : List OrderItem),
      (∀ it ∈ items, ∃ o ∈ orders, it.orderID = o.orderID) →
      (orders.map (fun o =>
        (items.filter (fun it => it.orderID == o.orderID)).length)).sum =
      items.length := by
  intro items
  induction items with
  | nil => intro _; simp
  | cons it rest ih =>
    intro hcov
    rw [sum_map_len_cons, ih (fun x hx => hcov x (List.mem_cons_of_mem _ hx))]
    have hmem : it.orderID ∈ orders.map (fun o => o.orderID) := by
      obtain ⟨o, ho, he⟩ := hcov it (List.mem_cons_self _ _)
      rw [he]
      exact List.mem_map_of_mem _ ho
    rw [countP_id_eq_one hnd hmem]
    simp [Nat.add_comm]

theorem cartRowsForOrder_facts (g : Rng) (o : Order) :
    ∀ (items : List OrderItem) (cid k : Nat),
      (∀ c ∈ (cartRowsForOrder g o items cid k).1, c.isOrdered = true) ∧
      (cartRowsForOrder g o items cid k).1.length = items.length := by
  intro items
  induction items with
  | nil =>
    intro cid k
    refine ⟨?_, by simp [cartRowsForOrder]⟩
    intro c hc
    simp [cartRowsForOrder] at hc
  | cons it rest ih =>
    intro cid k
    rw [cartRowsForOrder]
    dsimp only
    obtain ⟨ih1, ih2⟩ := ih (cid + 1) (k + 1)
    refine ⟨?_, by simp [ih2]⟩
    intro c hc
    rcases List.mem_cons.mp hc with h | h
    · rw [h]
    · exact ih1 c h

theorem cartFromOrders_facts (g : Rng) (order_items : List OrderItem) :
    ∀ (orders : List Order) (cid k : Nat),
      (∀ c ∈ (cartFromOrders g order_items orders cid k).1, c.isOrdered = true) ∧
      (cartFromOrders g order_items orders cid k).1.length =
        (orders.map (fun o =>
          (order_items.filter (fun it => it.orderID == o.orderID)).length)).sum := by
  intro orders
  induction orders with
  | nil =>
    intro cid k
    refine ⟨?_, by simp [cartFromOrders]⟩
    intro c hc
    simp [cartFromOrders] at hc
  | cons o os ih =>
    intro cid k
    rw [cartFromOrders]
    dsimp only
    obtain ⟨h1, h2⟩ := cartRowsForOrder_facts g o
      (order_items.filter (fun it => it.orderID == o.orderID)) cid k
    obtain ⟨ih1, ih2⟩ := ih _ _
    constructor
    · intro c hc
      rcases List.mem_append.mp hc with h | h
      · exact h1 c h
      · exact ih1 c h
    · rw [List.length_append, h2, ih2, List.map_cons, List.sum_cons]

theorem abandonedLoop_facts (g : Rng) (users : List User)
    (restaurants : List Restaurant) (menu : List MenuItem) (startDay : ℤ) :
    ∀ (n cid k : Nat),
      (∀ c ∈ (abandonedLoop g users restaurants menu startDay n cid k).1,
        c.isOrdered = false) ∧
      (abandonedLoop g users restaurants menu startDay n cid k).1.length ≤ n ∧
      (users ≠ [] → restaurants.filter (fun r => r.isActive) ≠ [] →
        (∀ r ∈ restaurants, r.isActive = true →
          ∃ m ∈ menu, m.restaurantID = r.restaurantID ∧ m.isAvailable = true) →
        (abandonedLoop g users restaurants menu startDay n cid k).1.length = n) := by
  intro n
  induction n with
  | zero =>
    intro cid k
    refine ⟨?_, by simp [abandonedLoop], fun _ _ _ => by simp [abandonedLoop]⟩
    intro c hc
    simp [abandonedLoop] at hc
  | succ m ih =>
    intro cid k
    rw [abandonedLoop]
    cases hu : choice? users (g k) with
    | none =>
      dsimp only
      obtain ⟨ih1, ih2, ih3⟩ := ih cid (k + 1)
      refine ⟨ih1, by omega, ?_⟩
      intro hus _ _
      obtain ⟨x, hx, _⟩ := choice?_of_ne_nil hus (g k)
      rw [hu] at hx
      exact absurd hx (by simp)
    | some user =>
      dsimp only
      cases hr : choice? (restaurants.filter (fun r => r.isActive)) (g (k + 1)) with
      | none =>
        dsimp only
        obtain ⟨ih1, ih2, ih3⟩ := ih cid (k + 2)
        refine ⟨ih1, by omega, ?_⟩
        intro _ hrs _
        obtain ⟨x, hx, _⟩ := choice?_of_ne_nil hrs (g (k + 1))
        rw [hr] at hx
        exact absurd hx (by simp)
      | some restaurant =>
        dsimp only
        by_cases hmenu : (menu.filter (fun m2 =>
            m2.restaurantID == restaurant.restaurantID && m2.isAvailable)).isEmpty
        · rw [if_pos hmenu]
          obtain ⟨ih1, ih2, ih3⟩ := ih cid (k + 2)
          refine ⟨ih1, by omega, ?_⟩
          intro _ _ hav
          exfalso
          have hrf := List.mem_filter.mp (choice?_mem hr)
          obtain ⟨m0, hm0, hmr, hma⟩ := hav restaurant hrf.1 hrf.2
          have : m0 ∈ menu.filter (fun m2 =>
              m2.restaurantID == restaurant.restaurantID && m2.isAvailable) :=
            List.mem_filter.mpr ⟨hm0, by simp [hmr, hma]⟩
          rw [List.isEmpty_iff.mp hmenu] at this
          simp at this
        · rw [if_neg hmenu]
          cases hi : choice? (menu.filter (fun m2 =>
              m2.restaurantID == restaurant.restaurantID && m2.isAvailable))
              (g (k + 2)) with
          | none =>
            dsimp only
            obtain ⟨ih1, ih2, ih3⟩ := ih cid (k + 3)
            refine ⟨ih1, by omega, ?_⟩
            intro _ _ _
            exfalso
            have hne : menu.filter (fun m2 =>
                m2.restaurantID == restaurant.restaurantID && m2.isAvailable) ≠ [] := by
              intro hnil
              rw [hnil] at hmenu
              exact hmenu rfl
            obtain ⟨x, hx, _⟩ := choice?_of_ne_nil hne (g (k + 2))
            rw [hi] at hx
            exact absurd hx (by simp)
          | some item =>
            dsimp only
            obtain ⟨ih1, ih2, ih3⟩ := ih (cid + 1) (k + 5)
            refine ⟨?_, by simp; omega, ?_⟩
            · intro c hc
              rcases List.mem_cons.mp hc with h | h
              · rw [h]
              · exact ih1 c h
            · intro hus hrs hav
              simp [ih3 hus hrs hav]

/-- C5: exactly one `IsOrdered = true` cart row is generated per OrderItem
row (the counts are equal, given distinct order ids and items referencing
existing orders), and the number of abandoned (`IsOrdered = false`) rows is
the target `int(ordered_count * rate / (1 - rate))` — attained exactly
whenever no sampled draw hits an active restaurant without available menu
items (and never exceeded, the draw being skipped in that case). -/
theorem cart_items_spec (g : Rng) (users : List User)
    (restaurants : List Restaurant) (menu : List MenuItem) (orders : List Order)
    (order_items : List OrderItem) (rate : ℚ) (startDay : ℤ) (k : Nat)
    (hnd : (orders.map (fun o => o.orderID)).Nodup)
    (hcov : ∀ it ∈ order_items, ∃ o ∈ orders, it.orderID = o.orderID) :
    (generate_cart_items g users restaurants menu orders order_items rate
      startDay k).1.countP (fun c => c.isOrdered) = order_items.length ∧
    (generate_cart_items g users restaurants menu orders order_items rate
      startDay k).1.countP (fun c => !c.isOrdered) ≤
      (pyInt ((order_items.length : ℚ) * rate / (1 - rate))).toNat ∧
    (users ≠ [] → restaurants.filter (fun r => r.isActive) ≠ [] →
      (∀ r ∈ restaurants, r.isActive = true →
        ∃ m ∈ menu, m.restaurantID = r.restaurantID ∧ m.isAvailable = true) →
      (generate_cart_items g users restaurants menu orders order_items rate
        startDay k).1.countP (fun c => !c.isOrdered) =
        (pyInt ((order_items.length : ℚ) * rate / (1 - rate))).toNat) := by
  obtain ⟨hc1, hc2⟩ := cartFromOrders_facts g order_items orders 1 k
  have hlen1 : (cartFromOrders g order_items orders 1 k).1.length =
      order_items.length := by
    rw [hc2, sum_filter_lengths hnd order_items hcov]
  obtain ⟨ha1, ha2, ha3⟩ := abandonedLoop_facts g users restaurants menu startDay
    ((pyInt (((cartFromOrders g order_items orders 1 k).1.length : ℚ) * rate /
      (1 - rate))).toNat)
    (cartFromOrders g order_items orders 1 k).2.1
    (cartFromOrders g order_items orders 1 k).2.2
  rw [generate_cart_items]
  dsimp only
  rw [List.countP_append, List.countP_append]
  have hcount1 : (cartFromOrders g order_items orders 1 k).1.countP
      (fun c => c.isOrdered) = order_items.length := by
    rw [← hlen1]
    rw [List.countP_eq_length]
    intro c hc
    exact hc1 c hc
  have hcount1f : (cartFromOrders g order_items orders 1 k).1.countP
      (fun c => !c.isOrdered) = 0 := by
    rw [List.countP_eq_zero]
    intro c hc
    simp [hc1 c hc]
  have hcount2t : (abandonedLoop g users restaurants menu startDay
      ((pyInt (((cartFromOrders g order_items orders 1 k).1.length : ℚ) * rate /
        (1 - rate))).toNat)
      (cartFromOrders g order_items orders 1 k).2.1
      (cartFromOrders g order_items orders 1 k).2.2).1.countP
      (fun c => c.isOrdered) = 0 := by
    rw [List.countP_eq_zero]
    intro c hc
    simp [ha1 c hc]
  have hcount2f : (abandonedLoop g users restaurants menu startDay
      ((pyInt (((cartFromOrders g order_items orders 1 k).1.length : ℚ) * rate /
        (1 - rate))).toNat)
      (cartFromOrders g order_items orders 1 k).2.1
      (cartFromOrders g order_items orders 1 k).2.2).1.countP
      (fun c => !c.isOrdered) = (abandonedLoop g users restaurants menu startDay
      ((pyInt (((cartFromOrders g order_items orders 1 k).1.length : ℚ) * rate /
        (1 - rate))).toNat)
      (cartFromOrders g order_items orders 1 k).2.1
      (cartFromOrders g order_items orders 1 k).2.2).1.length := by
    rw [List.countP_eq_length]
    intro c hc
    simp [ha1 c hc]
  rw [hcount1, hcount1f, hcount2t, hcount2f, hlen1] at *
  refine ⟨by omega, ?_, ?_⟩
  · rw [hlen1] at ha2
    omega
  · intro hus hrs hav
    have := ha3 hus hrs hav
    rw [hlen1] at this
    omega

section
set_option allowUnsafeReducibility true
attribute [local semireducible] Rat.add Rat.sub Rat.mul Rat.inv Rat.ofScientific
set_option maxRecDepth 10000

/-- C1: the users table is NOT reproduced byte-identically across runs with
the same seed: `random.seed(42)` and `np.random.seed(42)` do not seed the
Faker provider, so two runs whose (OS-seeded) faker entropy differs produce
different Username/Email/... fields even though every seeded draw is equal.
The two runs below share the seeded stream `gZero` and all inputs and differ
only in faker entropy. -/
theorem faker_entropy_changes_output :
    generate_users gZero fkA 1 [exCity] generate_acquisition_channels 0 1 0 0 ≠
    generate_users gZero fkB 1 [exCity] generate_acquisition_channels 0 1 0 0 := by
  decide

/-- C10: the daily order-synthesis loop selects the ordering user without
reference to the signup date — on the fixture, the single daily order goes
to user 2 at minute 1140 of day 0, strictly before user 2's day-100 signup —
and the bot-injection pass places its burst day (day 0, again before bot
user 1's day-50 signup) and samples its restaurant from ALL restaurants:
order 2 uses restaurant 1, which is inactive. -/
theorem order_independent_of_signup_spec :
    exRun.1.length = 51 ∧
    (exRun.1.getD 0 default).userID = exU2.userID ∧
    (exRun.1.getD 0 default).orderTime < exU2.signUpDate * 1440 ∧
    (exRun.1.getD 1 default).userID = exU1.userID ∧
    (exRun.1.getD 1 default).restaurantID = exR1.restaurantID ∧
    exR1.isActive = false ∧
    (exRun.1.getD 1 default).orderTime < exU1.signUpDate * 1440 := by
  decide

/-- Witness for C2 at the fixture: the money specification of the first
generated order, with the 2-decimal-price hypothesis discharged. -/
theorem orders_money_spec_witness :
    FinalAmountSpec ((generate_orders [exU1, exU2] [exR1, exR2] [exM1, exM2]
      exCfg gZero 0).1.getD 0 default) := by
  refine orders_money_spec [exU1, exU2] [exR1, exR2] [exM1, exM2] exCfg gZero 0
    ?_ _ ?_
  · intro m hm
    fin_cases hm
    · exact ⟨5000, by norm_num [exM1]⟩
    · exact ⟨10000, by norm_num [exM2]⟩
  · decide

/-- Witness for C3 at the fixture: the subtotal identity of the first
generated order item. -/
theorem order_items_sum_spec_witness :
    ((generate_orders [exU1, exU2] [exR1, exR2] [exM1, exM2] exCfg gZero 0).2.getD
      0 default).subtotal =
    (((generate_orders [exU1, exU2] [exR1, exR2] [exM1, exM2] exCfg gZero 0).2.getD
      0 default).quantity : ℚ) *
    ((generate_orders [exU1, exU2] [exR1, exR2] [exM1, exM2] exCfg gZero 0).2.getD
      0 default).itemPrice := by
  refine (order_items_sum_spec [exU1, exU2] [exR1, exR2] [exM1, exM2] exCfg gZero 0
    ?_).1 _ ?_
  · intro m hm
    fin_cases hm
    · exact ⟨5000, by norm_num [exM1]⟩
    · exact ⟨10000, by norm_num [exM2]⟩
  · decide

/-- Witness for C4 at the fixture: a two-order table (one Delivered, one
Cancelled) with distinct ids; the Delivered order gets exactly one row. -/
theorem delivery_tracking_spec_witness :
    (generate_delivery_tracking gZero [exOrder, exOrderC] 0).1.countP
      (fun d => d.orderID == exOrder.orderID) =
      if exOrder.orderStatus = "Delivered" then 1 else 0 :=
  (delivery_tracking_spec gZero [exOrder, exOrderC] 0 (by decide)).2 exOrder
    (by decide)

/-- Witness for C5 at the fixture: one order with one item yields exactly
one converted cart row. -/
theorem cart_items_spec_witness :
    (generate_cart_items gZero [exU1] [exR2] [exM2] [exOrder] [exItem] (3/10)
      0 0).1.countP (fun c => c.isOrdered) = [exItem].length :=
  (cart_items_spec gZero [exU1] [exR2] [exM2] [exOrder] [exItem] (3/10) 0 0
    (by decide) (by decide)).1

/-- Witness for C6 at the fixture: with distinct user ids, channel 5 is the
channel named "Referral Program". -/
theorem referrals_spec_witness :
    ∃ ch ∈ generate_acquisition_channels, ch.channelID = 5 ∧
      ch.channelName = "Referral Program" :=
  (referrals_spec gZero [exU1, exU2] 0 (by decide)).1

/-- Witness for C7: the first restaurant generated over the full city table
(drawing Mumbai, a metro) satisfies the rating specification. -/
theorem restaurant_rating_spec_witness :
    ∃ c ∈ generate_cities 50,
      c.cityID = ((generate_restaurants gZero fkA 1 (generate_cities 50) 0 0).getD
        0 default).cityID ∧
      (∃ u : ℚ, 3 ≤ u ∧ u ≤ 5 ∧
        ((generate_restaurants gZero fkA 1 (generate_cities 50) 0 0).getD
          0 default).rating =
          round2 (u + (if metro_cities.contains c.cityName then 3/10 else 0))) ∧
      3 ≤ ((generate_restaurants gZero fkA 1 (generate_cities 50) 0 0).getD
        0 default).rating ∧
      ((generate_restaurants gZero fkA 1 (generate_cities 50) 0 0).getD
        0 default).rating ≤ 53/10 ∧
      (5 < ((generate_restaurants gZero fkA 1 (generate_cities 50) 0 0).getD
        0 default).rating → metro_cities.contains c.cityName = true) :=
  restaurant_rating_spec gZero fkA 1 (generate_cities 50) 0 0 _ (by decide)

/-- Witness for C8: a file system lacking the menu master file makes stage 3
halt with the error naming it. -/
theorem stage3_missing_input_spec_witness :
    ∃ p ∈ required_files,
      (fun s => !(s == "1_csv_files/menu.csv")) p.1 = false ∧
      stage3_main (fun s => !(s == "1_csv_files/menu.csv")) [] [] [] [] []
        { sessions_per_user_per_month := 8, abandoned_cart_rate := 3/10 } 0 365
        gZero = Except.error (p.2 ++ p.1) :=
  stage3_missing_input_spec (fun s => !(s == "1_csv_files/menu.csv")) [] [] [] [] []
    { sessions_per_user_per_month := 8, abandoned_cart_rate := 3/10 } 0 365 gZero
    ⟨("1_csv_files/menu.csv", "Missing master file: "), by decide, by decide⟩
end
